import Mathlib

/-!
Shallow embedding of the game-state transition engine of the world-war-hex
repository (src/lib/game/hexUtils.ts, the game-state module bundled with it,
and the opponent strategist in src/classes/HexPosition.ts), together with
proofs settling the frozen claims about it.

JavaScript numbers are modelled as Int where the source only ever holds
integers, and as Rat where fractional values occur (path costs of 1.5, the
1.5 defender terrain bonus).  Optional fields become Option, JS truthiness
tests on numbers become explicit "isSome and nonzero" tests, and in-place
mutation becomes sequential functional update (the source only ever reads
the mutated state through the object it returns).  Fresh uuid generation is
modelled by an explicit supply of id strings, and calls of the ambient
random number generator by an explicit oracle of rational draws.
-/

namespace WWH

/-- Axial hex coordinates, src/types HexCoordinates. -/
structure HexCoordinates where
  q : Int
  r : Int
deriving DecidableEq, Repr

/-- TerrainType enumeration from src/types. -/
inductive TerrainType where
  | plain | mountain | forest | water | desert | resource
deriving DecidableEq, Repr

/-- PlayerType enumeration from src/types. -/
inductive PlayerType where
  | player | ai
deriving DecidableEq, Repr

/-- The faction opposing the given one. -/
def PlayerType.other : PlayerType → PlayerType
  | .player => .ai
  | .ai => .player

/-- UnitType enumeration from src/types. -/
inductive UnitType where
  | infantry | tank | artillery | helicopter | medic
deriving DecidableEq, Repr

/-- Ability enumeration from src/types. -/
inductive Ability where
  | rangedAttack | healing | terrainBonus | rapidMovement | stealth
deriving DecidableEq, Repr

/-- Unit record from src/types. -/
structure Unit where
  id : String
  type : UnitType
  owner : PlayerType
  position : HexCoordinates
  movementRange : Int
  attackPower : Int
  lifespan : Int
  maxLifespan : Int
  cost : Int
  abilities : List Ability
  hasMoved : Bool
  isEngagedInCombat : Bool
deriving DecidableEq, Repr

/-- Hex record from src/types.  The optional booleans isBase and
isResourceHex are only ever used through JS truthiness, so an absent field
and a false field are identified. -/
structure Hex where
  id : String
  coordinates : HexCoordinates
  terrain : TerrainType
  isBase : Bool := false
  isResourceHex : Bool := false
  resourceValue : Option Int := none
  owner : Option PlayerType := none
  unit : Option Unit := none
  baseHealth : Option Int := none
deriving DecidableEq, Repr

/-- Player record from src/types. -/
structure Player where
  id : String
  type : PlayerType
  points : Int
  units : List Unit
  baseLocation : Option HexCoordinates := none
  baseHealth : Option Int := none
  maxBaseHealth : Option Int := none
deriving DecidableEq, Repr

/-- The TS Record of both players, insertion order player then ai. -/
structure Players where
  player : Player
  ai : Player
deriving DecidableEq, Repr

/-- Indexing players by PlayerType key. -/
def Players.get (ps : Players) : PlayerType → Player
  | .player => ps.player
  | .ai => ps.ai

/-- Functional update of the record at one PlayerType key. -/
def Players.set (ps : Players) : PlayerType → Player → Players
  | .player, p => { ps with player := p }
  | .ai, p => { ps with ai := p }

/-- Object.values over the players record (insertion order). -/
def Players.values (ps : Players) : List Player :=
  [ps.player, ps.ai]

/-- GamePhase enumeration from src/types. -/
inductive GamePhase where
  | setup | planning | execution | combat | gameOver
deriving DecidableEq, Repr

/-- Move record (pending move intent) from src/types. -/
structure Move where
  unitId : String
  playerId : String
  from_ : HexCoordinates
  to_ : HexCoordinates
deriving DecidableEq, Repr

/-- Purchase record (pending purchase intent) from src/types. -/
structure Purchase where
  playerId : String
  unitType : UnitType
  position : HexCoordinates
deriving DecidableEq, Repr

/-- Combat record from src/types. -/
structure Combat where
  hexCoordinates : HexCoordinates
  attackers : List Unit
  defenders : List Unit
  resolved : Bool
  retreating : Option (List Unit) := none
deriving DecidableEq, Repr

/-- AI difficulty tier of GameSettings. -/
inductive AIDifficulty where
  | easy | medium | hard
deriving DecidableEq, Repr

/-- Record of terrain distribution fractions from GameSettings. -/
structure TerrainDistribution where
  plain : Rat
  mountain : Rat
  forest : Rat
  water : Rat
  desert : Rat
  resource : Rat
deriving DecidableEq, Repr

/-- GameSettings record from src/types. -/
structure GameSettings where
  gridSize : Int
  planningPhaseTime : Int
  aiDifficulty : AIDifficulty
  terrainDistribution : TerrainDistribution
  resourceHexCount : Int
deriving DecidableEq, Repr

/-- GameState record from src/types. -/
structure GameState where
  hexGrid : List Hex
  players : Players
  currentPhase : GamePhase
  turnNumber : Int
  planningTimeRemaining : Int
  winner : Option PlayerType := none
  pendingMoves : List Move
  pendingPurchases : List Purchase
  combats : List Combat
  settings : Option GameSettings := none
deriving DecidableEq, Repr

/-! ## Coordinate math (hexUtils.ts) -/

/-- The six axial directions, in source order E, NE, NW, W, SW, SE. -/
def DIRECTIONS : List HexCoordinates :=
  [⟨1, 0⟩, ⟨1, -1⟩, ⟨0, -1⟩, ⟨-1, 0⟩, ⟨-1, 1⟩, ⟨0, 1⟩]

/-- getHexDistance: cube-coordinate Chebyshev distance. -/
def getHexDistance (a b : HexCoordinates) : Int :=
  let ax := a.q; let az := a.r; let ay := -ax - az
  let bx := b.q; let bz := b.r; let by_ := -bx - bz
  max |ax - bx| (max |ay - by_| |az - bz|)

/-- getNeighbors: the six adjacent coordinates in direction order. -/
def getNeighbors (hex : HexCoordinates) : List HexCoordinates :=
  DIRECTIONS.map (fun dir => ⟨hex.q + dir.q, hex.r + dir.r⟩)

/-- findHexByCoordinates: first hex of the grid with the given coordinates. -/
def findHexByCoordinates (hexGrid : List Hex) (coordinates : HexCoordinates) :
    Option Hex :=
  hexGrid.find? (fun hex => hex.coordinates == coordinates)

/-- getHexesInRange: hexes within the given distance of the center. -/
def getHexesInRange (hexGrid : List Hex) (center : HexCoordinates)
    (range : Int) : List Hex :=
  hexGrid.filter (fun hex => getHexDistance center hex.coordinates ≤ range)

/-! ## Unit table and settings (gameState.ts) -/

/-- The per-type stat block of the UNITS table (the Omit record). -/
structure UnitStats where
  type : UnitType
  movementRange : Int
  attackPower : Int
  lifespan : Int
  maxLifespan : Int
  cost : Int
  abilities : List Ability
deriving DecidableEq, Repr

/-- UNITS: the unit definition table. -/
def UNITS : UnitType → UnitStats
  | .infantry => ⟨.infantry, 2, 2, 5, 5, 5, []⟩
  | .tank => ⟨.tank, 3, 4, 8, 8, 12, [.terrainBonus]⟩
  | .artillery => ⟨.artillery, 1, 5, 3, 3, 10, [.rangedAttack]⟩
  | .helicopter => ⟨.helicopter, 5, 3, 4, 4, 15, [.rapidMovement]⟩
  | .medic => ⟨.medic, 2, 1, 4, 4, 8, [.healing]⟩

/-- DEFAULT_SETTINGS from gameState.ts. -/
def DEFAULT_SETTINGS : GameSettings :=
  { gridSize := 8
    planningPhaseTime := 60
    aiDifficulty := .medium
    terrainDistribution :=
      { plain := 45/100, mountain := 15/100, forest := 20/100,
        water := 10/100, desert := 10/100, resource := 0 }
    resourceHexCount := 10 }

/-- BASE_MAX_HEALTH constant from gameState.ts. -/
def BASE_MAX_HEALTH : Int := 50

/-- JS truthiness of an optional number field. -/
def optTruthy (o : Option Int) : Bool :=
  match o with
  | some h => h != 0
  | none => false

/-! ## Grid and roster update helpers

The source updates the hex array by findIndex followed by assignment at that
index, and a player's units array likewise; both amount to replacing the
first matching element and leaving the list unchanged when none matches. -/

/-- Replace the first hex with the given coordinates (findIndex + set). -/
def updateFirstHex (grid : List Hex) (c : HexCoordinates) (f : Hex → Hex) :
    List Hex :=
  match grid with
  | [] => []
  | h :: t =>
    if h.coordinates = c then f h :: t else h :: updateFirstHex t c f

/-- Replace the first hex satisfying a predicate (find + indexOf + set). -/
def updateFirstHexBy (grid : List Hex) (p : Hex → Bool) (f : Hex → Hex) :
    List Hex :=
  match grid with
  | [] => []
  | h :: t =>
    if p h then f h :: t else h :: updateFirstHexBy t p f

/-- Replace the first unit with the given id (findIndex + set). -/
def updateFirstUnit (units : List Unit) (uid : String) (f : Unit → Unit) :
    List Unit :=
  match units with
  | [] => []
  | u :: t =>
    if u.id = uid then f u :: t else u :: updateFirstUnit t uid f

/-! ## setBaseLocation and the pending queues (gameState.ts) -/

/-- setBaseLocation: marks a base hex for a faction; a no-op (returning the
unchanged state after a console error) only when no hex exists at the given
coordinates.  When afterwards both players carry a baseLocation the phase
becomes planning with turn number 1. -/
def setBaseLocation (state : GameState) (playerType : PlayerType)
    (coordinates : HexCoordinates) : GameState :=
  match findHexByCoordinates state.hexGrid coordinates with
  | none => state
  | some _ =>
    let grid := updateFirstHex state.hexGrid coordinates (fun h =>
      { h with isBase := true, owner := some playerType,
               baseHealth := some BASE_MAX_HEALTH })
    let p := state.players.get playerType
    let players := state.players.set playerType
      { p with baseLocation := some coordinates,
               baseHealth := some BASE_MAX_HEALTH,
               maxBaseHealth := some BASE_MAX_HEALTH }
    let s := { state with hexGrid := grid, players := players }
    if s.players.player.baseLocation.isSome ∧
        s.players.ai.baseLocation.isSome then
      { s with currentPhase := .planning, turnNumber := 1,
               planningTimeRemaining := state.planningTimeRemaining }
    else s

/-- addPendingMove: queue a move intent; the unchanged state when neither
player has the given id or the player has no unit with the given id. -/
def addPendingMove (state : GameState) (unitId playerId : String)
    (to_ : HexCoordinates) : GameState :=
  match state.players.values.find? (fun p => p.id == playerId) with
  | none => state
  | some player =>
    match player.units.find? (fun u => u.id == unitId) with
    | none => state
    | some unit =>
      let move : Move :=
        { unitId := unitId, playerId := playerId,
          from_ := unit.position, to_ := to_ }
      { state with pendingMoves := state.pendingMoves ++ [move] }

/-- addPendingPurchase: queue a purchase intent, unconditionally. -/
def addPendingPurchase (state : GameState) (playerId : String)
    (unitType : UnitType) (position : HexCoordinates) : GameState :=
  let purchase : Purchase :=
    { playerId := playerId, unitType := unitType, position := position }
  { state with pendingPurchases := state.pendingPurchases ++ [purchase] }

end WWH

namespace WWH

/-- TS Array.findIndex: index of the first element satisfying the
predicate. -/
def findIndexBy (p : α → Bool) : List α → Option Nat
  | [] => none
  | a :: as => if p a then some 0 else (findIndexBy p as).map (· + 1)

/-! ## executeMoves (gameState.ts) -/

/-- One iteration of the purchase loop of executeMoves: validate that the
player exists and can afford the unit, that the target hex exists and is
empty, and that the hex found at the player's baseLocation (defaulting to
the origin) is a base; then instantiate the unit, attach it to the roster
and the hex, and deduct the cost.  The uuid supply stands in for the
uuidv4() call and is consumed only when a unit is actually created. -/
def applyPurchase (state : GameState) (supply : List String)
    (purchase : Purchase) : GameState × List String :=
  match state.players.values.find? (fun p => p.id == purchase.playerId) with
  | none => (state, supply)
  | some player =>
    let unitCost := (UNITS purchase.unitType).cost
    if player.points < unitCost then (state, supply)
    else
      match findHexByCoordinates state.hexGrid purchase.position with
      | none => (state, supply)
      | some hex =>
        if hex.unit.isSome then (state, supply)
        else
          match findHexByCoordinates state.hexGrid
              (player.baseLocation.getD ⟨0, 0⟩) with
          | none => (state, supply)
          | some baseHex =>
            if !baseHex.isBase then (state, supply)
            else
              let stats := UNITS purchase.unitType
              let newUnit : Unit :=
                { id := "unit-" ++ supply.headD "",
                  type := purchase.unitType, owner := player.type,
                  position := purchase.position,
                  movementRange := stats.movementRange,
                  attackPower := stats.attackPower,
                  lifespan := stats.lifespan,
                  maxLifespan := stats.maxLifespan, cost := stats.cost,
                  abilities := stats.abilities, hasMoved := false,
                  isEngagedInCombat := false }
              let pt := player.type
              let p0 := state.players.get pt
              let players := state.players.set pt
                { p0 with units := p0.units ++ [newUnit],
                          points := p0.points - unitCost }
              let grid := updateFirstHex state.hexGrid purchase.position
                (fun h => { h with unit := some newUnit })
              ({ state with players := players, hexGrid := grid },
               supply.tail)

/-- One iteration of the move loop of executeMoves: validate that the
player and unit exist and that both hexes exist; skip when the destination
holds a unit and is not a base; otherwise update the roster copy (position,
hasMoved) and transfer the unit between the two hexes. -/
def applyMove (state : GameState) (move : Move) : GameState :=
  match state.players.values.find? (fun p => p.id == move.playerId) with
  | none => state
  | some player =>
    match findIndexBy (fun u => u.id == move.unitId) player.units with
    | none => state
    | some unitIndex =>
      match player.units.get? unitIndex with
      | none => state
      | some unit =>
        match findHexByCoordinates state.hexGrid move.from_,
              findHexByCoordinates state.hexGrid move.to_ with
        | some _, some toHex =>
          if toHex.unit.isSome && !toHex.isBase then state
          else
            let updatedUnit :=
              { unit with position := move.to_, hasMoved := true }
            let pt := player.type
            let p0 := state.players.get pt
            let players := state.players.set pt
              { p0 with units := p0.units.set unitIndex updatedUnit }
            let grid := updateFirstHex state.hexGrid move.from_
              (fun h => { h with unit := none })
            let grid := updateFirstHex grid move.to_
              (fun h => { h with unit := some updatedUnit })
            { state with players := players, hexGrid := grid }
        | _, _ => state

/-- Mark the roster copy of a unit as engaged in combat (detectCombat). -/
def markEngaged (ps : Players) (u : Unit) : Players :=
  ps.set u.owner
    { ps.get u.owner with
      units := updateFirstUnit (ps.get u.owner).units u.id
        (fun x => { x with isEngagedInCombat := true }) }

/-- collectResources: every resource hex holding a unit grants its value
(defaulting to 0) to that unit's owner. -/
def collectResources (state : GameState) : GameState :=
  let resourceHexes := state.hexGrid.filter (fun h => h.isResourceHex)
  resourceHexes.foldl (fun s hex =>
    match hex.unit with
    | some u =>
      let owner := u.owner
      let resourceValue := hex.resourceValue.getD 0
      { s with players :=
          (s.players.set owner
            { s.players.get owner with
              points := (s.players.get owner).points + resourceValue }) }
    | none => s) state

/-- One of the two symmetric blocks of processDamageToBase, for the given
victim faction and the base hex found for it up front.  Requires both the
hex and the player record to carry a truthy (nonzero) base health; sums the
attack power of enemy units within distance 3, floors the new health at 0,
writes it to player and hex, and on reaching 0 sets the winner and the
gameOver phase. -/
def siegeBlock (s : GameState) (baseHex? : Option Hex)
    (victim : PlayerType) : GameState :=
  match baseHex? with
  | none => s
  | some baseHex =>
    if optTruthy baseHex.baseHealth &&
        optTruthy ((s.players.get victim).baseHealth) then
      let enemy := victim.other
      let nearbyEnemyUnits := (s.players.get enemy).units.filter
        (fun u => getHexDistance u.position baseHex.coordinates ≤ 3)
      let totalDamage :=
        nearbyEnemyUnits.foldl (fun sum u => sum + u.attackPower) 0
      if totalDamage > 0 then
        let newHealth :=
          max 0 (((s.players.get victim).baseHealth).getD 0 - totalDamage)
        let s := { s with players :=
          (s.players.set victim
            { s.players.get victim with baseHealth := some newHealth }) }
        let s :=
          { s with hexGrid :=
              (updateFirstHexBy s.hexGrid (fun h => h == baseHex)
                (fun h => { h with baseHealth := some newHealth })) }
        if newHealth ≤ 0 then
          { s with winner := some enemy, currentPhase := .gameOver }
        else s
      else s
    else s

/-- processDamageToBase: both base hexes are found up front, then the
player-base block runs before the ai-base block. -/
def processDamageToBase (state : GameState) : GameState :=
  let playerBaseHex := state.hexGrid.find?
    (fun h => h.isBase && h.owner == some PlayerType.player)
  let aiBaseHex := state.hexGrid.find?
    (fun h => h.isBase && h.owner == some PlayerType.ai)
  let s1 := siegeBlock state playerBaseHex .player
  siegeBlock s1 aiBaseHex .ai

/-- startNextPlanningPhase: siege damage, then resource collection, then
per-unit flag reset, then turn increment with the phase set back to
planning and the timer reset from the default settings. -/
def startNextPlanningPhase (state : GameState) : GameState :=
  let s := processDamageToBase state
  let s := collectResources s
  let resetP := fun (p : Player) =>
    { p with units :=
        (p.units.map (fun u =>
          { u with hasMoved := false, isEngagedInCombat := false })) }
  let ps : Players :=
    { player := resetP s.players.player, ai := resetP s.players.ai }
  let s := { s with players := ps }
  { s with turnNumber := s.turnNumber + 1, currentPhase := .planning,
           planningTimeRemaining := DEFAULT_SETTINGS.planningPhaseTime }

/-- detectCombat: for every occupied hex with adjacent enemy units, create
one combat (attackers are the enemy neighbors, the defender is the hex's
unit) and flag all involved roster copies as engaged; neighbor lookups read
the grid as it stood on entry.  With at least one combat the phase becomes
combat; otherwise the end-of-round pipeline runs. -/
def detectCombat (state : GameState) : GameState :=
  let step := fun (acc : Players × List Combat) (hex : Hex) =>
    match hex.unit with
    | none => acc
    | some u =>
      let neighborHexes := (getNeighbors hex.coordinates).filterMap
        (findHexByCoordinates state.hexGrid)
      let enemyUnits := neighborHexes.filterMap (fun h =>
        match h.unit with
        | some eu => if eu.owner ≠ u.owner then some eu else none
        | none => none)
      if enemyUnits.isEmpty then acc
      else
        let combat : Combat :=
          { hexCoordinates := hex.coordinates, attackers := enemyUnits,
            defenders := [u], resolved := false }
        let ps := markEngaged acc.1 u
        let ps := enemyUnits.foldl markEngaged ps
        (ps, acc.2 ++ [combat])
  let r := state.hexGrid.foldl step (state.players, [])
  if r.2.length > 0 then
    { state with players := r.1, combats := r.2, currentPhase := .combat }
  else
    startNextPlanningPhase { state with players := r.1 }

/-- checkVictory: when a faction's unit sits on the opposing base hex, set
the winner and the gameOver phase. -/
def checkVictory (state : GameState) : GameState :=
  let playerBaseHex := state.hexGrid.find?
    (fun h => h.isBase && h.owner == some PlayerType.player)
  let aiBaseHex := state.hexGrid.find?
    (fun h => h.isBase && h.owner == some PlayerType.ai)
  match playerBaseHex, aiBaseHex with
  | some pb, some ab =>
    if pb.unit.any (fun u => u.owner == PlayerType.ai) then
      { state with winner := some .ai, currentPhase := .gameOver }
    else if ab.unit.any (fun u => u.owner == PlayerType.player) then
      { state with winner := some .player, currentPhase := .gameOver }
    else state
  | _, _ => state

/-- executeMoves: apply every pending purchase, then every pending move,
clear both queues, set the transient execution phase, run combat detection
(and, absent combat, the end-of-round pipeline), then the victory check. -/
def executeMoves (uuids : List String) (state : GameState) : GameState :=
  let r := state.pendingPurchases.foldl
    (fun (acc : GameState × List String) purchase =>
      applyPurchase acc.1 acc.2 purchase) (state, uuids)
  let s2 := state.pendingMoves.foldl applyMove r.1
  let s3 := { s2 with pendingMoves := [], pendingPurchases := [],
                      currentPhase := .execution }
  checkVictory (detectCombat s3)

/-! ## resolveCombat (gameState.ts) -/

/-- getValidRetreatPositions: adjacent coordinates whose hex exists, is not
water (unless the unit is a helicopter) and holds no unit, in neighbor
order. -/
def getValidRetreatPositions (state : GameState) (unit : Unit) :
    List HexCoordinates :=
  (getNeighbors unit.position).filter (fun coord =>
    match findHexByCoordinates state.hexGrid coord with
    | some hex =>
      (hex.terrain != .water || unit.type == .helicopter) && hex.unit.isNone
    | none => false)

/-- retreatUnit: move the roster copy of the unit to the new position,
clearing the engaged flag, and transfer it between the two hexes; none when
the unit is absent from its owner's roster. -/
def retreatUnit (state : GameState) (unit : Unit) (to_ : HexCoordinates) :
    GameState × Option Unit :=
  match findIndexBy (fun u => u.id == unit.id)
      (state.players.get unit.owner).units with
  | none => (state, none)
  | some unitIndex =>
    match (state.players.get unit.owner).units.get? unitIndex with
    | none => (state, none)
    | some entry =>
      let updatedUnit :=
        { entry with position := to_, isEngagedInCombat := false }
      let p0 := state.players.get unit.owner
      let players := state.players.set unit.owner
        { p0 with units := p0.units.set unitIndex updatedUnit }
      let grid := updateFirstHex state.hexGrid unit.position
        (fun h => { h with unit := none })
      let grid := updateFirstHex grid to_
        (fun h => { h with unit := some updatedUnit })
      ({ state with players := players, hexGrid := grid }, some updatedUnit)

/-- removeUnit: drop every roster entry with the unit's id from its owner's
roster and clear the hex at the unit's recorded position. -/
def removeUnit (state : GameState) (unit : Unit) : GameState :=
  let p0 := state.players.get unit.owner
  let players := state.players.set unit.owner
    { p0 with units := p0.units.filter (fun u => u.id != unit.id) }
  let grid := updateFirstHex state.hexGrid unit.position
    (fun h => { h with unit := none })
  { state with players := players, hexGrid := grid }

/-- One iteration of a damage loop of resolveCombat: per-unit damage is the
total opposing power divided by the side's size, floored, at least 1; the
new lifespan is computed from the combat-record snapshot and floored at 0,
a unit at 0 is removed, otherwise the roster copy's lifespan is updated. -/
def applyCombatDamage (totalOpposingPower : Rat) (sideLength : Nat)
    (state : GameState) (unit : Unit) : GameState :=
  let damagePerUnit : Int :=
    max 1 ⌊totalOpposingPower / (sideLength : Rat)⌋
  match findIndexBy (fun u => u.id == unit.id)
      (state.players.get unit.owner).units with
  | none => state
  | some unitIndex =>
    let newLifespan := max 0 (unit.lifespan - damagePerUnit)
    if newLifespan ≤ 0 then removeUnit state unit
    else
      match (state.players.get unit.owner).units.get? unitIndex with
      | none => state
      | some entry =>
        let p0 := state.players.get unit.owner
        { state with players :=
            (state.players.set unit.owner
              { p0 with units :=
                  (p0.units.set unitIndex
                    { entry with lifespan := newLifespan }) }) }

/-- resolveCombat: the unchanged state for a missing or resolved combat.
With retreat, each defender in turn moves to the first valid retreat
position or is destroyed when none exists, and the combat is marked
resolved with the list of successfully moved units.  Without retreat, total
powers are summed, the defender total is multiplied by 1.5 on a mountain or
forest hex when some defender has the terrainBonus ability, and each side
takes the opposing total split evenly (floored, minimum 1) per unit.  When
afterwards every combat is resolved, the end-of-round pipeline runs. -/
def resolveCombat (state : GameState) (combatIndex : Nat) (retreat : Bool) :
    GameState :=
  match state.combats.get? combatIndex with
  | none => state
  | some combat =>
    if combat.resolved then state
    else
      let newState :=
        if retreat then
          let acc := combat.defenders.foldl
            (fun (acc : GameState × List Unit) defender =>
              match getValidRetreatPositions acc.1 defender with
              | retreatTo :: _ =>
                match retreatUnit acc.1 defender retreatTo with
                | (s2, some u) => (s2, acc.2 ++ [u])
                | (s2, none) => (s2, acc.2)
              | [] => (removeUnit acc.1 defender, acc.2)) (state, [])
          { acc.1 with combats :=
              (acc.1.combats.set combatIndex
                { combat with resolved := true, retreating := some acc.2 }) }
        else
          let attackers := combat.attackers
          let defenders := combat.defenders
          let totalAttackerPower : Int :=
            attackers.foldl (fun sum u => sum + u.attackPower) 0
          let baseDefenderPower : Int :=
            defenders.foldl (fun sum u => sum + u.attackPower) 0
          let combatHex :=
            findHexByCoordinates state.hexGrid combat.hexCoordinates
          let bonus : Bool :=
            match combatHex with
            | some hex =>
              (hex.terrain == .mountain || hex.terrain == .forest) &&
                defenders.any (fun u => u.abilities.contains .terrainBonus)
            | none => false
          let totalDefenderPower : Rat :=
            if bonus then (baseDefenderPower : Rat) * (3/2)
            else (baseDefenderPower : Rat)
          let s := attackers.foldl
            (applyCombatDamage totalDefenderPower attackers.length) state
          let s := defenders.foldl
            (applyCombatDamage (totalAttackerPower : Rat) defenders.length) s
          { s with combats :=
              (s.combats.set combatIndex
                { combat with resolved := true }) }
      if newState.combats.all (fun c => c.resolved) then
        startNextPlanningPhase newState
      else newState

end WWH

namespace WWH

/-! ## Concrete fixtures used by the claim theorems -/

/-- A freshly purchased-shaped unit of the given type, as instantiated from
the UNITS table. -/
def mkUnit (uid : String) (t : UnitType) (owner : PlayerType)
    (pos : HexCoordinates) : Unit :=
  let st := UNITS t
  { id := uid, type := t, owner := owner, position := pos,
    movementRange := st.movementRange, attackPower := st.attackPower,
    lifespan := st.lifespan, maxLifespan := st.maxLifespan,
    cost := st.cost, abilities := st.abilities,
    hasMoved := false, isEngagedInCombat := false }

/-- A plain-terrain hex with no occupants. -/
def plainHex (hid : String) (q r : Int) : Hex :=
  { id := hid, coordinates := ⟨q, r⟩, terrain := .plain }

/-- State with a player base at the origin and a purchase queued on the
empty plain hex at distance 3 from the base. -/
def state1 : GameState :=
  { hexGrid := [{ plainHex "h00" 0 0 with
                  isBase := true, owner := some .player, baseHealth := some 50 },
                plainHex "h10" 1 0, plainHex "h20" 2 0, plainHex "h30" 3 0],
    players :=
      { player := { id := "P", type := .player, points := 20, units := [],
                    baseLocation := some ⟨0,0⟩, baseHealth := some 50,
                    maxBaseHealth := some 50 },
        ai := { id := "A", type := .ai, points := 20, units := [] } },
    currentPhase := .planning, turnNumber := 1, planningTimeRemaining := 60,
    pendingMoves := [], pendingPurchases := [⟨"P", .infantry, ⟨3,0⟩⟩],
    combats := [] }

def unitA : Unit := mkUnit "uA" .infantry .player ⟨1,0⟩

def unitB : Unit := mkUnit "uB" .infantry .player ⟨0,0⟩

/-- The player's own base hex, occupied by the friendly unit uB. -/
def baseHex2 : Hex :=
  { plainHex "h00" 0 0 with
    isBase := true, owner := some .player, baseHealth := some 50,
    unit := some unitB }

/-- State with a move queued onto the mover's own occupied base hex. -/
def state2 : GameState :=
  { hexGrid := [baseHex2,
                { plainHex "h10" 1 0 with unit := some unitA },
                plainHex "h20" 2 0],
    players :=
      { player := { id := "P", type := .player, points := 20,
                    units := [unitA, unitB], baseLocation := some ⟨0,0⟩,
                    baseHealth := some 50, maxBaseHealth := some 50 },
        ai := { id := "A", type := .ai, points := 20, units := [] } },
    currentPhase := .planning, turnNumber := 1, planningTimeRemaining := 60,
    pendingMoves := [{ unitId := "uA", playerId := "P",
                       from_ := ⟨1,0⟩, to_ := ⟨0,0⟩ }],
    pendingPurchases := [], combats := [] }

/-- Scenario E state: player base at health 3 with two ai infantry units
(attack power 2 each) within distance 3 of it. -/
def state4 : GameState :=
  { hexGrid := [{ plainHex "h00" 0 0 with
                  isBase := true, owner := some .player, baseHealth := some 3 },
                { plainHex "h10" 1 0 with
                  unit := some (mkUnit "e1" .infantry .ai ⟨1,0⟩) },
                { plainHex "h20" 2 0 with
                  unit := some (mkUnit "e2" .infantry .ai ⟨2,0⟩) },
                { plainHex "h60" 6 0 with
                  isBase := true, owner := some .ai, baseHealth := some 50 }],
    players :=
      { player := { id := "P", type := .player, points := 20, units := [],
                    baseLocation := some ⟨0,0⟩, baseHealth := some 3,
                    maxBaseHealth := some 50 },
        ai := { id := "A", type := .ai, points := 20,
                units := [mkUnit "e1" .infantry .ai ⟨1,0⟩,
                          mkUnit "e2" .infantry .ai ⟨2,0⟩],
                baseLocation := some ⟨6,0⟩, baseHealth := some 50,
                maxBaseHealth := some 50 } },
    currentPhase := .combat, turnNumber := 3, planningTimeRemaining := 0,
    pendingMoves := [], pendingPurchases := [], combats := [] }

/-- An initial-shaped state: a five-hex plain row, no units, no bases. -/
def c7s0 : GameState :=
  { hexGrid := [plainHex "h00" 0 0, plainHex "h10" 1 0, plainHex "h20" 2 0,
                plainHex "h30" 3 0, plainHex "h40" 4 0],
    players :=
      { player := { id := "P", type := .player, points := 20, units := [] },
        ai := { id := "A", type := .ai, points := 20, units := [] } },
    currentPhase := .setup, turnNumber := 0, planningTimeRemaining := 60,
    pendingMoves := [], pendingPurchases := [], combats := [] }

/-- The grid/roster mirror invariant of the specification: every occupied
hex holds a unit whose id appears in exactly one player's roster, every
roster copy with that id sitting at the hex's coordinates. -/
def hexRosterInvariantB (s : GameState) : Bool :=
  s.hexGrid.all fun h =>
    match h.unit with
    | none => true
    | some u =>
      ((s.players.values.filter
          (fun p => p.units.any (fun v => v.id == u.id))).length == 1) &&
      (s.players.values.all fun p => p.units.all fun v =>
        v.id != u.id || v.position == h.coordinates)

/-- C1: executeMoves is claimed to apply a pending purchase only when the
target hex is adjacent to the purchasing player's base.  The code only
checks that the hex at the player's recorded baseLocation is a base and
never checks adjacency (despite its own comment "near base and empty"): a
purchase on an empty hex at distance 3 from the base is applied, deducting
the cost and attaching the unit, with pendingPurchases cleared. -/
theorem executeMoves_applies_nonadjacent_purchase :
    (executeMoves ["u1"] state1).players.player.points = 15 ∧
    (executeMoves ["u1"] state1).players.player.units.map
      (fun u => (u.type, u.lifespan, u.maxLifespan, u.position)) =
      [(UnitType.infantry, 5, 5, (⟨3,0⟩ : HexCoordinates))] ∧
    ((findHexByCoordinates (executeMoves ["u1"] state1).hexGrid
        ⟨3,0⟩).bind Hex.unit).map Unit.type = some UnitType.infantry ∧
    (executeMoves ["u1"] state1).pendingPurchases = [] ∧
    getHexDistance ⟨3,0⟩ ⟨0,0⟩ = 3 ∧
    (⟨3,0⟩ : HexCoordinates) ∉ getNeighbors ⟨0,0⟩ ∧
    state1.players.player.baseLocation = some ⟨0,0⟩ := by
  decide

/-- C2: executeMoves is claimed to apply a pending move only when the
destination is empty or is the enemy base.  The code (despite its own
comment "empty or it's the enemy base") only skips occupied non-base
hexes: a move onto the mover's own base, occupied by a friendly unit, is
applied, overwriting the base hex's unit reference. -/
theorem executeMoves_moves_onto_occupied_own_base :
    (findHexByCoordinates state2.hexGrid ⟨0,0⟩).map
      (fun h => (h.isBase, h.owner, h.unit.map Unit.id)) =
      some (true, some PlayerType.player, some "uB") ∧
    unitA.owner = PlayerType.player ∧
    ((findHexByCoordinates (executeMoves [] state2).hexGrid
        ⟨0,0⟩).bind Hex.unit).map Unit.id = some "uA" ∧
    (executeMoves [] state2).players.player.units.map
      (fun u => (u.id, u.position)) =
      [("uA", (⟨0,0⟩ : HexCoordinates)), ("uB", ⟨0,0⟩)] ∧
    ((findHexByCoordinates (executeMoves [] state2).hexGrid
        ⟨1,0⟩).bind Hex.unit) = none := by
  decide

/-- C4: inside processDamageToBase the claimed behaviour holds on
Scenario E — 4 siege damage on a health-3 base floors the health at 0. The
winner becomes the opposing faction and the phase gameOver, before
resource collection — but the end-of-round pipeline then unconditionally
overwrites the phase back to planning and increments the turn, so the
resulting state of the pipeline never carries the claimed gameOver phase. -/
theorem base_destruction_leaves_planning_phase :
    (processDamageToBase state4).players.player.baseHealth = some 0 ∧
    (processDamageToBase state4).winner = some PlayerType.ai ∧
    (processDamageToBase state4).currentPhase = GamePhase.gameOver ∧
    (startNextPlanningPhase state4).winner = some PlayerType.ai ∧
    (startNextPlanningPhase state4).players.player.baseHealth = some 0 ∧
    ((findHexByCoordinates (startNextPlanningPhase state4).hexGrid
        ⟨0,0⟩).bind Hex.baseHealth) = some 0 ∧
    (startNextPlanningPhase state4).currentPhase = GamePhase.planning ∧
    (startNextPlanningPhase state4).currentPhase ≠ GamePhase.gameOver ∧
    (startNextPlanningPhase state4).turnNumber = state4.turnNumber + 1 := by
  decide

/-- C7: the grid/roster mirror invariant is claimed to hold in every state
reachable through the five public transitions.  Queuing two pending moves
for the same unit (which addPendingMove permits) and executing them leaves
the unit's stale copy on the first destination hex while the roster copy
records the second destination: the invariant holds after the first
executeMoves of the chain and fails after the second. -/
theorem duplicate_moves_break_hex_roster_invariant :
    hexRosterInvariantB
      (executeMoves ["w1"] (addPendingPurchase
        (setBaseLocation (setBaseLocation c7s0 .player ⟨0,0⟩) .ai ⟨4,0⟩)
        "P" .infantry ⟨1,0⟩)) = true ∧
    hexRosterInvariantB
      (executeMoves []
        (addPendingMove
          (addPendingMove
            (executeMoves ["w1"] (addPendingPurchase
              (setBaseLocation (setBaseLocation c7s0 .player ⟨0,0⟩)
                .ai ⟨4,0⟩)
              "P" .infantry ⟨1,0⟩))
            "unit-w1" "P" ⟨2,0⟩)
          "unit-w1" "P" ⟨3,0⟩)) = false := by
  decide

end WWH

namespace WWH

/-! ## Claim C3: setBaseLocation -/

theorem Players.get_set_self (ps : Players) (pt : PlayerType) (p : Player) :
    (ps.set pt p).get pt = p := by
  cases pt <;> rfl

theorem Players.get_set_other (ps : Players) (pt : PlayerType) (p : Player) :
    (ps.set pt p).get pt.other = ps.get pt.other := by
  cases pt <;> rfl

theorem findHexByCoordinates_updateFirstHex (grid : List Hex)
    (c : HexCoordinates) (f : Hex → Hex)
    (hf : ∀ h, (f h).coordinates = h.coordinates) :
    findHexByCoordinates (updateFirstHex grid c f) c =
      (findHexByCoordinates grid c).map f := by
  induction grid with
  | nil => rfl
  | cons h t ih =>
    by_cases hc : h.coordinates = c
    · simp [updateFirstHex, findHexByCoordinates, hc, hf]
    · simp only [updateFirstHex, findHexByCoordinates, if_neg hc] at ih ⊢
      rw [List.find?_cons_of_neg, List.find?_cons_of_neg]
      · exact ih
      · simp [hc]
      · simp [hc]

/-- A single-hex state whose only hex is water, with no bases placed. -/
def stateW : GameState :=
  { hexGrid := [{ id := "w00", coordinates := ⟨0,0⟩, terrain := .water }],
    players :=
      { player := { id := "P", type := .player, points := 20, units := [] },
        ai := { id := "A", type := .ai, points := 20, units := [] } },
    currentPhase := .setup, turnNumber := 0, planningTimeRemaining := 60,
    pendingMoves := [], pendingPurchases := [], combats := [] }

/-- C3 counterexample: setBaseLocation is claimed to return the state
unchanged when the target hex is water terrain; on a water hex it instead
marks the hex as a base owned by the faction. -/
theorem setBaseLocation_marks_water_hex :
    setBaseLocation stateW .player ⟨0,0⟩ ≠ stateW ∧
    (findHexByCoordinates (setBaseLocation stateW .player ⟨0,0⟩).hexGrid
        ⟨0,0⟩).map (fun h => (h.terrain, h.isBase, h.owner, h.baseHealth)) =
      some (TerrainType.water, true, some PlayerType.player, some 50) := by
  decide

/-- C3 amended: setBaseLocation is a silent no-op exactly when no hex
exists at the given coordinates; any existing hex — water, mountain or
resource terrain and repeated placements included, terrain validation
living in the UI callers — is marked isBase with the faction as owner and
baseHealth 50, the player record gains baseLocation and base health, the
other player and the queue/combat/winner/timer fields are untouched, and
when afterwards both players carry a baseLocation the phase becomes
planning with turn number 1, otherwise phase and turn are unchanged. -/
theorem setBaseLocation_spec (s : GameState) (pt : PlayerType)
    (c : HexCoordinates) :
    (findHexByCoordinates s.hexGrid c = none →
      setBaseLocation s pt c = s) ∧
    (∀ h0, findHexByCoordinates s.hexGrid c = some h0 →
      (findHexByCoordinates (setBaseLocation s pt c).hexGrid c =
        some { h0 with
               isBase := true
               owner := some pt
               baseHealth := some BASE_MAX_HEALTH }) ∧
      ((setBaseLocation s pt c).players.get pt =
        { s.players.get pt with
          baseLocation := some c
          baseHealth := some BASE_MAX_HEALTH
          maxBaseHealth := some BASE_MAX_HEALTH }) ∧
      ((setBaseLocation s pt c).players.get pt.other =
        s.players.get pt.other) ∧
      (setBaseLocation s pt c).pendingMoves = s.pendingMoves ∧
      (setBaseLocation s pt c).pendingPurchases = s.pendingPurchases ∧
      (setBaseLocation s pt c).combats = s.combats ∧
      (setBaseLocation s pt c).winner = s.winner ∧
      (setBaseLocation s pt c).planningTimeRemaining =
        s.planningTimeRemaining ∧
      (((setBaseLocation s pt c).players.player.baseLocation.isSome ∧
        (setBaseLocation s pt c).players.ai.baseLocation.isSome) →
        (setBaseLocation s pt c).currentPhase = .planning ∧
        (setBaseLocation s pt c).turnNumber = 1) ∧
      (¬((setBaseLocation s pt c).players.player.baseLocation.isSome ∧
         (setBaseLocation s pt c).players.ai.baseLocation.isSome) →
        (setBaseLocation s pt c).currentPhase = s.currentPhase ∧
        (setBaseLocation s pt c).turnNumber = s.turnNumber)) := by
  constructor
  · intro hnone
    simp only [setBaseLocation, hnone]
  · intro h0 hsome
    simp only [setBaseLocation, hsome]
    have hgrid := findHexByCoordinates_updateFirstHex s.hexGrid c
      (fun h => { h with isBase := true, owner := some pt,
                         baseHealth := some BASE_MAX_HEALTH })
      (fun _ => rfl)
    rw [hsome] at hgrid
    split
    case isTrue hboth =>
      refine ⟨hgrid, ?_, ?_, rfl, rfl, rfl, rfl, rfl, ?_, ?_⟩
      · exact Players.get_set_self _ _ _
      · exact Players.get_set_other _ _ _
      · intro _; exact ⟨rfl, rfl⟩
      · intro hn
        exact absurd hboth hn
    case isFalse hnboth =>
      refine ⟨hgrid, ?_, ?_, rfl, rfl, rfl, rfl, rfl, ?_, ?_⟩
      · exact Players.get_set_self _ _ _
      · exact Players.get_set_other _ _ _
      · intro hb
        exact absurd hb hnboth
      · intro _; exact ⟨rfl, rfl⟩

/-- Witness for setBaseLocation_spec at a concrete state: placing the
player base on the origin hex of c7s0 records the base on the player. -/
theorem setBaseLocation_spec_witness :
    findHexByCoordinates c7s0.hexGrid ⟨0,0⟩ = some (plainHex "h00" 0 0) ∧
    (setBaseLocation c7s0 .player ⟨0,0⟩).players.get .player =
      { c7s0.players.get .player with
        baseLocation := some ⟨0,0⟩
        baseHealth := some BASE_MAX_HEALTH
        maxBaseHealth := some BASE_MAX_HEALTH } :=
  ⟨by decide,
   ((setBaseLocation_spec c7s0 .player ⟨0,0⟩).2 (plainHex "h00" 0 0)
      (by decide)).2.1⟩

/-! ## Claim C9: addPendingMove -/

/-- C9: addPendingMove returns the state unchanged when the playerId or
unitId does not resolve, and otherwise appends exactly one Move whose from
field is the unit's current roster position, changing no other field; a
second call for the same unit appends a second coexisting entry without
deduplication. -/
theorem addPendingMove_spec (s : GameState) (uid pid : String)
    (c c' : HexCoordinates) :
    (s.players.values.find? (fun p => p.id == pid) = none →
      addPendingMove s uid pid c = s) ∧
    (∀ player, s.players.values.find? (fun p => p.id == pid) = some player →
      (player.units.find? (fun u => u.id == uid) = none →
        addPendingMove s uid pid c = s) ∧
      (∀ unit, player.units.find? (fun u => u.id == uid) = some unit →
        addPendingMove s uid pid c =
          { s with pendingMoves := s.pendingMoves ++
              [{ unitId := uid, playerId := pid,
                 from_ := unit.position, to_ := c }] } ∧
        (addPendingMove (addPendingMove s uid pid c) uid pid c').pendingMoves
          = s.pendingMoves ++
            [{ unitId := uid, playerId := pid,
               from_ := unit.position, to_ := c },
             { unitId := uid, playerId := pid,
               from_ := unit.position, to_ := c' }])) := by
  refine ⟨?_, ?_⟩
  · intro hnone
    simp only [addPendingMove, hnone]
  · intro player hp
    refine ⟨?_, ?_⟩
    · intro hnone
      simp only [addPendingMove, hp, hnone]
    · intro unit hu
      have h1 : addPendingMove s uid pid c =
          { s with pendingMoves := s.pendingMoves ++
              [{ unitId := uid, playerId := pid,
                 from_ := unit.position, to_ := c }] } := by
        simp only [addPendingMove, hp, hu]
      refine ⟨h1, ?_⟩
      have hp2 : ({ s with pendingMoves := s.pendingMoves ++
          [{ unitId := uid, playerId := pid,
             from_ := unit.position, to_ := c }] } :
          GameState).players.values.find? (fun p => p.id == pid) =
          some player := hp
      rw [h1]
      simp only [addPendingMove, hp2, hu, List.append_assoc]
      rfl

/-- Witness for addPendingMove_spec: on state2 the player P and its unit
uA resolve and a queued move records the unit's current position. -/
theorem addPendingMove_spec_witness :
    state2.players.values.find? (fun p => p.id == "P") =
      some state2.players.player ∧
    state2.players.player.units.find? (fun u => u.id == "uA") = some unitA ∧
    addPendingMove state2 "uA" "P" ⟨2,0⟩ =
      { state2 with pendingMoves := state2.pendingMoves ++
          [{ unitId := "uA", playerId := "P",
             from_ := unitA.position, to_ := ⟨2,0⟩ }] } :=
  ⟨by decide, by decide,
   (((addPendingMove_spec state2 "uA" "P" ⟨2,0⟩ ⟨2,1⟩).2
       state2.players.player (by decide)).2 unitA (by decide)).1⟩

end WWH

namespace WWH

/-! ## Observables and generic lemmas used by the combat proofs -/

/-- The roster entry of a player found by unit id, the way the source looks
units up. -/
def findUnitById (s : GameState) (pt : PlayerType) (uid : String) :
    Option Unit :=
  (s.players.get pt).units.find? (fun v => v.id == uid)

/-- The unit field of the hex found at the given coordinates: none when no
hex exists there, some occupant otherwise. -/
def hexUnitAt (s : GameState) (pos : HexCoordinates) : Option (Option Unit) :=
  (findHexByCoordinates s.hexGrid pos).map Hex.unit

/-- The per-unit flag reset applied by the end-of-round pipeline. -/
def resetFlags (u : Unit) : Unit :=
  { u with hasMoved := false, isEngagedInCombat := false }

theorem foldl_preserves {α σ β : Type _} {f : σ → α → σ} (g : σ → β)
    (h : ∀ s a, g (f s a) = g s) :
    ∀ (l : List α) (s : σ), g (l.foldl f s) = g s := by
  intro l
  induction l with
  | nil => intro s; rfl
  | cons a t ih => intro s; rw [List.foldl_cons, ih, h]

theorem Players.get_set_ne (ps : Players) (pt pt' : PlayerType) (p : Player)
    (h : pt' ≠ pt) : (ps.set pt p).get pt' = ps.get pt' := by
  cases pt <;> cases pt' <;> first | rfl | exact absurd rfl h

theorem foldl_add_attackPower (l : List Unit) (n : Int) :
    l.foldl (fun sum u => sum + u.attackPower) n =
      n + (l.map Unit.attackPower).sum := by
  induction l generalizing n with
  | nil => simp
  | cons u t ih => simp [ih]; ring

theorem find?_map_unit (g : Unit → Unit) (hg : ∀ u, (g u).id = u.id)
    (l : List Unit) (uid : String) :
    (l.map g).find? (fun v => v.id == uid) =
      (l.find? (fun v => v.id == uid)).map g := by
  induction l with
  | nil => rfl
  | cons u t ih =>
    by_cases h : u.id = uid
    · have hb : (u.id == uid) = true := by simp [h]
      simp [List.find?, hg, hb]
    · have hb : (u.id == uid) = false := by simp [h]
      simp [List.find?, hg, hb, ih]

theorem updateFirstUnit_map_id (l : List Unit) (uid : String)
    (f : Unit → Unit) (hf : ∀ e, (f e).id = e.id) :
    (updateFirstUnit l uid f).map Unit.id = l.map Unit.id := by
  induction l with
  | nil => rfl
  | cons u t ih =>
    by_cases h : u.id = uid
    · simp [updateFirstUnit, h, hf]
    · simp [updateFirstUnit, h, ih]

theorem find?_updateFirstUnit_self (l : List Unit) (uid : String)
    (f : Unit → Unit) (hf : ∀ e, (f e).id = e.id) :
    (updateFirstUnit l uid f).find? (fun v => v.id == uid) =
      (l.find? (fun v => v.id == uid)).map f := by
  induction l with
  | nil => rfl
  | cons u t ih =>
    by_cases h : u.id = uid
    · have hb : (u.id == uid) = true := by simp [h]
      simp [updateFirstUnit, List.find?, h, hb, hf]
    · have hb : (u.id == uid) = false := by simp [h]
      simp [updateFirstUnit, List.find?, h, hb, ih]

theorem find?_updateFirstUnit_ne (l : List Unit) (uid uid' : String)
    (f : Unit → Unit) (hf : ∀ e, (f e).id = e.id) (hne : uid' ≠ uid) :
    (updateFirstUnit l uid f).find? (fun v => v.id == uid') =
      l.find? (fun v => v.id == uid') := by
  induction l with
  | nil => rfl
  | cons u t ih =>
    by_cases h : u.id = uid
    · have h' : u.id ≠ uid' := by rw [h]; exact Ne.symm hne
      have hb : (u.id == uid') = false := by simp [h']
      have hb2 : (uid == uid') = false := by simp [Ne.symm hne]
      simp [updateFirstUnit, List.find?, h, hb, hb2, hf]
    · by_cases h' : u.id = uid'
      · have hb : (u.id == uid') = true := by simp [h']
        simp [updateFirstUnit, List.find?, h, hb]
      · have hb : (u.id == uid') = false := by simp [h']
        simp [updateFirstUnit, List.find?, h, hb, ih]

theorem find?_filter_id_self (l : List Unit) (uid : String) :
    (l.filter (fun u => u.id != uid)).find? (fun v => v.id == uid) = none := by
  rw [List.find?_eq_none]
  intro x hx
  rw [List.mem_filter] at hx
  simpa using hx.2

theorem find?_filter_id_ne (l : List Unit) (uid uid' : String)
    (hne : uid' ≠ uid) :
    (l.filter (fun u => u.id != uid)).find? (fun v => v.id == uid') =
      l.find? (fun v => v.id == uid') := by
  induction l with
  | nil => rfl
  | cons u t ih =>
    by_cases h : u.id = uid
    · have h' : u.id ≠ uid' := by rw [h]; exact Ne.symm hne
      have hb2 : (uid == uid') = false := by simp [Ne.symm hne]
      simp [List.filter, List.find?, beq_iff_eq, h, h', hb2, ih]
    · by_cases h' : u.id = uid'
      · have hb : (u.id == uid') = true := by simp [h']
        have hf : (u.id != uid) = true := by simp [h]
        simp [List.filter, List.find?, hf, hb]
      · have hb : (u.id == uid') = false := by simp [h']
        have hf : (u.id != uid) = true := by simp [h]
        simp [List.filter, List.find?, hf, hb, ih]

theorem findIndexBy_get? {α : Type _} (p : α → Bool) (l : List α) (i : Nat)
    (h : findIndexBy p l = some i) : ∃ e, l.get? i = some e ∧ p e = true := by
  induction l generalizing i with
  | nil => simp [findIndexBy] at h
  | cons a t ih =>
    by_cases hp : p a
    · simp only [findIndexBy, hp, if_true] at h
      obtain rfl := Option.some.inj h
      exact ⟨a, rfl, hp⟩
    · simp only [findIndexBy, hp, Bool.false_eq_true, if_false] at h
      obtain ⟨j, hj, rfl⟩ := Option.map_eq_some'.mp h
      obtain ⟨e, he, hpe⟩ := ih j hj
      exact ⟨e, he, hpe⟩

theorem findIndexBy_of_find? {α : Type _} (p : α → Bool) (l : List α)
    (u : α) (h : l.find? p = some u) :
    ∃ i, findIndexBy p l = some i ∧ l.get? i = some u := by
  induction l with
  | nil => simp at h
  | cons a t ih =>
    by_cases hp : p a
    · rw [List.find?_cons_of_pos _ hp] at h
      obtain rfl := Option.some.inj h
      exact ⟨0, by simp [findIndexBy, hp], rfl⟩
    · rw [List.find?_cons_of_neg _ hp] at h
      obtain ⟨i, hi, hg⟩ := ih h
      exact ⟨i + 1, by simp [findIndexBy, hp, hi], hg⟩

theorem set_at_findIndexBy (l : List Unit) (uid : String) (g : Unit → Unit)
    (i : Nat) (e : Unit)
    (hi : findIndexBy (fun u => u.id == uid) l = some i)
    (he : l.get? i = some e) :
    l.set i (g e) = updateFirstUnit l uid g := by
  induction l generalizing i with
  | nil => simp [findIndexBy] at hi
  | cons u t ih =>
    by_cases hu : u.id = uid
    · simp only [findIndexBy, beq_iff_eq, hu, if_true] at hi
      obtain rfl := Option.some.inj hi
      obtain rfl := Option.some.inj he
      simp [updateFirstUnit, hu]
    · simp only [findIndexBy, beq_iff_eq, hu, if_false] at hi
      obtain ⟨j, hj, rfl⟩ := Option.map_eq_some'.mp hi
      simp only [List.get?] at he
      rw [List.set_cons_succ, updateFirstUnit, if_neg hu, ih j hj he]

theorem findHexByCoordinates_updateFirstHex_ne (grid : List Hex)
    (c c' : HexCoordinates) (f : Hex → Hex)
    (hf : ∀ h, (f h).coordinates = h.coordinates) (hne : c' ≠ c) :
    findHexByCoordinates (updateFirstHex grid c f) c' =
      findHexByCoordinates grid c' := by
  induction grid with
  | nil => rfl
  | cons h t ih =>
    by_cases hc : h.coordinates = c
    · have hb : (h.coordinates == c') = false := by simp [hc, Ne.symm hne]
      have hb2 : (c == c') = false := by simp [Ne.symm hne]
      simp [updateFirstHex, findHexByCoordinates, List.find?, hc, hf, hb,
        hb2]
    · by_cases hc' : h.coordinates = c'
      · have hb : (h.coordinates == c') = true := by simp [hc']
        simp [updateFirstHex, findHexByCoordinates, List.find?, hc, hb]
      · have hb : (h.coordinates == c') = false := by simp [hc']
        simp only [updateFirstHex, findHexByCoordinates, List.find?, hc,
          if_false, hb] at ih ⊢
        exact ih

theorem hexUnitAt_updateFirstHexBy (grid : List Hex) (p : Hex → Bool)
    (f : Hex → Hex) (pos : HexCoordinates)
    (hc : ∀ h, (f h).coordinates = h.coordinates)
    (hu : ∀ h, (f h).unit = h.unit) :
    (findHexByCoordinates (updateFirstHexBy grid p f) pos).map Hex.unit =
      (findHexByCoordinates grid pos).map Hex.unit := by
  induction grid with
  | nil => rfl
  | cons h t ih =>
    by_cases hp : p h
    · by_cases hpos : h.coordinates = pos
      · have hb : (h.coordinates == pos) = true := by simp [hpos]
        simp [updateFirstHexBy, findHexByCoordinates, List.find?, hp, hc,
          hu, hb]
      · have hb : (h.coordinates == pos) = false := by simp [hpos]
        simp [updateFirstHexBy, findHexByCoordinates, List.find?, hp, hc,
          hu, hb]
    · by_cases hpos : h.coordinates = pos
      · have hb : (h.coordinates == pos) = true := by simp [hpos]
        simp [updateFirstHexBy, findHexByCoordinates, List.find?, hp, hb]
      · have hb : (h.coordinates == pos) = false := by simp [hpos]
        simp only [updateFirstHexBy, findHexByCoordinates, List.find?, hp,
          if_false, hb] at ih ⊢
        exact ih

theorem removeUnit_findUnitById (st : GameState) (u : Unit)
    (pt : PlayerType) (uid : String) :
    findUnitById (removeUnit st u) pt uid =
      if pt = u.owner ∧ uid = u.id then none else findUnitById st pt uid := by
  by_cases hpt : pt = u.owner
  · by_cases hid : uid = u.id
    · rw [if_pos (And.intro hpt hid)]
      simp only [findUnitById, removeUnit]
      rw [hpt, Players.get_set_self, hid]
      exact find?_filter_id_self _ _
    · rw [if_neg (by simp [hid])]
      simp only [findUnitById, removeUnit]
      rw [hpt, Players.get_set_self]
      exact find?_filter_id_ne _ _ _ hid
  · rw [if_neg (by simp [hpt])]
    simp only [findUnitById, removeUnit]
    rw [Players.get_set_ne _ _ _ _ hpt]

theorem removeUnit_hexUnitAt_self (st : GameState) (u : Unit) :
    hexUnitAt (removeUnit st u) u.position =
      (hexUnitAt st u.position).map (fun _ => none) := by
  simp only [hexUnitAt, removeUnit]
  rw [findHexByCoordinates_updateFirstHex st.hexGrid u.position (fun h => { h with unit := none }) (fun _ => rfl)]
  cases findHexByCoordinates st.hexGrid u.position <;> rfl

theorem removeUnit_hexUnitAt_ne (st : GameState) (u : Unit)
    (pos : HexCoordinates) (hp : pos ≠ u.position) :
    hexUnitAt (removeUnit st u) pos = hexUnitAt st pos := by
  simp only [hexUnitAt, removeUnit]
  rw [findHexByCoordinates_updateFirstHex_ne st.hexGrid u.position pos (fun h => { h with unit := none }) (fun _ => rfl) hp]

theorem applyCombatDamage_combats (P : Rat) (len : Nat) (st : GameState)
    (u : Unit) : (applyCombatDamage P len st u).combats = st.combats := by
  rcases hidx : findIndexBy (fun v => v.id == u.id)
      (st.players.get u.owner).units with _ | i
  · simp only [applyCombatDamage, hidx]
  · by_cases hkill : max 0 (u.lifespan - max 1 ⌊P / (len : Rat)⌋) ≤ 0
    · simp only [applyCombatDamage, hidx, hkill, if_true]
      rfl
    · rcases hget : (st.players.get u.owner).units.get? i with _ | e
      · simp only [applyCombatDamage, hidx, hkill, if_false, hget]
      · simp only [applyCombatDamage, hidx, hkill, if_false, hget]

theorem applyCombatDamage_eq (P : Rat) (len : Nat) (st : GameState)
    (u : Unit) (hfind : findUnitById st u.owner u.id = some u) :
    applyCombatDamage P len st u =
      if u.lifespan ≤ max 1 ⌊P / (len : Rat)⌋ then removeUnit st u
      else
        { st with players :=
            (st.players.set u.owner
              { st.players.get u.owner with
                units :=
                  (updateFirstUnit (st.players.get u.owner).units u.id
                    (fun e =>
                      { e with
                        lifespan :=
                          u.lifespan - max 1 ⌊P / (len : Rat)⌋ })) }) } := by
  obtain ⟨i, hi, he⟩ := findIndexBy_of_find? _ _ _ hfind
  by_cases hd : u.lifespan ≤ max 1 ⌊P / (len : Rat)⌋
  · have h1 : max 0 (u.lifespan - max 1 ⌊P / (len : Rat)⌋) ≤ 0 :=
      max_le (le_refl 0) (sub_nonpos.mpr hd)
    simp only [applyCombatDamage, hi, h1, if_true, hd]
  · have hx : 0 < u.lifespan - max 1 ⌊P / (len : Rat)⌋ :=
      sub_pos.mpr (not_le.mp hd)
    have h1 : ¬ (u.lifespan - max 1 ⌊P / (len : Rat)⌋ ≤ 0) := not_le.mpr hx
    have hmax : max 0 (u.lifespan - max 1 ⌊P / (len : Rat)⌋) =
        u.lifespan - max 1 ⌊P / (len : Rat)⌋ :=
      max_eq_right (le_of_lt hx)
    simp only [applyCombatDamage, hi, he, hmax, h1, if_false, if_neg hd]
    rw [set_at_findIndexBy _ u.id (fun e => { e with lifespan := u.lifespan - max 1 ⌊P / (len : Rat)⌋ }) i u hi he]

theorem applyCombatDamage_findUnitById_ne (P : Rat) (len : Nat)
    (st : GameState) (u : Unit) (pt : PlayerType) (uid : String)
    (hne : uid ≠ u.id) :
    findUnitById (applyCombatDamage P len st u) pt uid =
      findUnitById st pt uid := by
  rcases hidx : findIndexBy (fun v => v.id == u.id)
      (st.players.get u.owner).units with _ | i
  · simp only [applyCombatDamage, hidx]
  · obtain ⟨e, he, hpe⟩ := findIndexBy_get? _ _ _ hidx
    have heid : e.id = u.id := by simpa using hpe
    by_cases hkill : max 0 (u.lifespan - max 1 ⌊P / (len : Rat)⌋) ≤ 0
    · simp only [applyCombatDamage, hidx, hkill, if_true]
      rw [removeUnit_findUnitById, if_neg (by simp [hne])]
    · simp only [applyCombatDamage, hidx, hkill, if_false, he]
      rw [set_at_findIndexBy _ u.id (fun x => { x with lifespan := max 0 (u.lifespan - max 1 ⌊P / (len : Rat)⌋) }) i e hidx he]
      by_cases hpt : pt = u.owner
      · subst hpt
        simp only [findUnitById, Players.get_set_self]
        exact find?_updateFirstUnit_ne _ _ _ _ (fun _ => rfl) hne
      · simp only [findUnitById]
        rw [Players.get_set_ne _ _ _ _ hpt]

theorem applyCombatDamage_findUnitById_self (P : Rat) (len : Nat)
    (st : GameState) (u : Unit)
    (hfind : findUnitById st u.owner u.id = some u) :
    findUnitById (applyCombatDamage P len st u) u.owner u.id =
      if u.lifespan ≤ max 1 ⌊P / (len : Rat)⌋ then none
      else some { u with lifespan := u.lifespan - max 1 ⌊P / (len : Rat)⌋ } := by
  rw [applyCombatDamage_eq _ _ _ _ hfind]
  by_cases hd : u.lifespan ≤ max 1 ⌊P / (len : Rat)⌋
  · rw [if_pos hd, if_pos hd, removeUnit_findUnitById,
      if_pos (And.intro rfl rfl)]
  · rw [if_neg hd, if_neg hd]
    simp only [findUnitById, Players.get_set_self]
    rw [find?_updateFirstUnit_self _ _ (fun e => { e with lifespan := u.lifespan - max 1 ⌊P / (len : Rat)⌋ }) (fun _ => rfl)]
    have hfind2 : (st.players.get u.owner).units.find? (fun v => v.id == u.id) =
        some u := hfind
    rw [hfind2]
    rfl

theorem applyCombatDamage_hexUnitAt (P : Rat) (len : Nat) (st : GameState)
    (u : Unit) (pos : HexCoordinates) :
    hexUnitAt (applyCombatDamage P len st u) pos = hexUnitAt st pos ∨
    hexUnitAt (applyCombatDamage P len st u) pos =
      (hexUnitAt st pos).map (fun _ => none) := by
  rcases hidx : findIndexBy (fun v => v.id == u.id)
      (st.players.get u.owner).units with _ | i
  · left; simp only [applyCombatDamage, hidx]
  · by_cases hkill : max 0 (u.lifespan - max 1 ⌊P / (len : Rat)⌋) ≤ 0
    · simp only [applyCombatDamage, hidx, hkill, if_true]
      by_cases hp : pos = u.position
      · right; rw [hp, removeUnit_hexUnitAt_self]
      · left; rw [removeUnit_hexUnitAt_ne _ _ _ hp]
    · rcases hget : (st.players.get u.owner).units.get? i with _ | e
      · left; simp only [applyCombatDamage, hidx, hkill, if_false, hget]
      · left; simp only [applyCombatDamage, hidx, hkill, if_false, hget]
        rfl

theorem applyCombatDamage_hexUnitAt_dead (P : Rat) (len : Nat)
    (st : GameState) (u : Unit)
    (hfind : findUnitById st u.owner u.id = some u)
    (hd : u.lifespan ≤ max 1 ⌊P / (len : Rat)⌋) :
    hexUnitAt (applyCombatDamage P len st u) u.position =
      (hexUnitAt st u.position).map (fun _ => none) := by
  rw [applyCombatDamage_eq _ _ _ _ hfind, if_pos hd,
    removeUnit_hexUnitAt_self]

theorem map_none_map_none (o : Option (Option Unit)) :
    ((o.map (fun _ => (none : Option Unit))).map
      (fun _ => (none : Option Unit))) = o.map (fun _ => none) := by
  cases o <;> rfl

theorem damageFold_findUnitById_ne (P : Rat) (len : Nat) (us : List Unit)
    (st : GameState) (pt : PlayerType) (uid : String)
    (h : ∀ u ∈ us, uid ≠ u.id) :
    findUnitById (us.foldl (applyCombatDamage P len) st) pt uid =
      findUnitById st pt uid := by
  induction us generalizing st with
  | nil => rfl
  | cons v t ih =>
    rw [List.foldl_cons, ih _ (fun u hu => h u (List.mem_cons_of_mem _ hu)),
      applyCombatDamage_findUnitById_ne _ _ _ _ _ _
        (h v (List.mem_cons_self _ _))]

theorem damageFold_combats (P : Rat) (len : Nat) (us : List Unit)
    (st : GameState) :
    (us.foldl (applyCombatDamage P len) st).combats = st.combats :=
  foldl_preserves (fun s => s.combats) (applyCombatDamage_combats P len) us st

theorem damageFold_hexUnitAt (P : Rat) (len : Nat) (us : List Unit)
    (st : GameState) (pos : HexCoordinates) :
    hexUnitAt (us.foldl (applyCombatDamage P len) st) pos =
        hexUnitAt st pos ∨
    hexUnitAt (us.foldl (applyCombatDamage P len) st) pos =
        (hexUnitAt st pos).map (fun _ => none) := by
  induction us generalizing st with
  | nil => left; rfl
  | cons v t ih =>
    rw [List.foldl_cons]
    rcases applyCombatDamage_hexUnitAt P len st v pos with h1 | h1 <;>
      rcases ih (applyCombatDamage P len st v) with h2 | h2
    · left; rw [h2, h1]
    · right; rw [h2, h1]
    · right; rw [h2, h1]
    · right; rw [h2, h1, map_none_map_none]

theorem damageFold_spec (P : Rat) (len : Nat) (us : List Unit)
    (st : GameState)
    (hIn : ∀ v ∈ us, findUnitById st v.owner v.id = some v)
    (hNd : (us.map Unit.id).Nodup) :
    ∀ u ∈ us,
      (u.lifespan ≤ max 1 ⌊P / (len : Rat)⌋ →
        findUnitById (us.foldl (applyCombatDamage P len) st) u.owner u.id =
          none ∧
        hexUnitAt (us.foldl (applyCombatDamage P len) st) u.position =
          (hexUnitAt st u.position).map (fun _ => none)) ∧
      (max 1 ⌊P / (len : Rat)⌋ < u.lifespan →
        findUnitById (us.foldl (applyCombatDamage P len) st) u.owner u.id =
          some { u with lifespan := u.lifespan - max 1 ⌊P / (len : Rat)⌋ }) := by
  induction us generalizing st with
  | nil => intro u hu; cases hu
  | cons v t ih =>
    intro u hu
    have hvfind := hIn v (List.mem_cons_self _ _)
    have hnd := List.nodup_cons.mp hNd
    have hInT : ∀ w ∈ t, findUnitById (applyCombatDamage P len st v)
        w.owner w.id = some w := by
      intro w hw
      rw [applyCombatDamage_findUnitById_ne]
      · exact hIn w (List.mem_cons_of_mem _ hw)
      · intro hid
        exact hnd.1 (hid ▸ List.mem_map_of_mem Unit.id hw)
    rcases List.mem_cons.mp hu with rfl | hut
    · constructor
      · intro hd
        constructor
        · rw [List.foldl_cons, damageFold_findUnitById_ne,
            applyCombatDamage_findUnitById_self _ _ _ _ hvfind, if_pos hd]
          intro w hw hid
          exact hnd.1 (hid ▸ List.mem_map_of_mem Unit.id hw)
        · rw [List.foldl_cons]
          have h1 := applyCombatDamage_hexUnitAt_dead P len st u hvfind hd
          rcases damageFold_hexUnitAt P len t
              (applyCombatDamage P len st u) u.position with h2 | h2
          · rw [h2, h1]
          · rw [h2, h1, map_none_map_none]
      · intro hd
        rw [List.foldl_cons, damageFold_findUnitById_ne,
          applyCombatDamage_findUnitById_self _ _ _ _ hvfind,
          if_neg (not_le.mpr hd)]
        intro w hw hid
        exact hnd.1 (hid ▸ List.mem_map_of_mem Unit.id hw)
    · have hrec := ih (applyCombatDamage P len st v) hInT hnd.2 u hut
      constructor
      · intro hd
        refine ⟨(hrec.1 hd).1, ?_⟩
        have h2 := (hrec.1 hd).2
        rcases applyCombatDamage_hexUnitAt P len st v u.position with h1 | h1
        · rw [List.foldl_cons, h2, h1]
        · rw [List.foldl_cons, h2, h1, map_none_map_none]
      · intro hd
        rw [List.foldl_cons]
        exact hrec.2 hd

theorem Players.get_set_units (ps : Players) (v pt : PlayerType)
    (p' : Player) (hu : p'.units = (ps.get v).units) :
    ((ps.set v p').get pt).units = (ps.get pt).units := by
  by_cases hpt : pt = v
  · rw [hpt, Players.get_set_self, hu]
  · rw [Players.get_set_ne _ _ _ _ hpt]

theorem siegeBlock_units (s : GameState) (b : Option Hex)
    (v pt : PlayerType) :
    ((siegeBlock s b v).players.get pt).units = (s.players.get pt).units := by
  cases b with
  | none => rfl
  | some baseHex =>
    simp only [siegeBlock]
    split
    · split
      · split
        · exact Players.get_set_units _ _ _ _ rfl
        · exact Players.get_set_units _ _ _ _ rfl
      · rfl
    · rfl

theorem siegeBlock_combats (s : GameState) (b : Option Hex)
    (v : PlayerType) : (siegeBlock s b v).combats = s.combats := by
  cases b with
  | none => rfl
  | some baseHex =>
    simp only [siegeBlock]
    split
    · split
      · split
        · rfl
        · rfl
      · rfl
    · rfl

theorem siegeBlock_hexUnitAt (s : GameState) (b : Option Hex)
    (v : PlayerType) (pos : HexCoordinates) :
    hexUnitAt (siegeBlock s b v) pos = hexUnitAt s pos := by
  cases b with
  | none => rfl
  | some baseHex =>
    simp only [siegeBlock]
    split
    · split
      · split
        · simp only [hexUnitAt]
          exact hexUnitAt_updateFirstHexBy _ _ _ _ (fun _ => rfl)
            (fun _ => rfl)
        · simp only [hexUnitAt]
          exact hexUnitAt_updateFirstHexBy _ _ _ _ (fun _ => rfl)
            (fun _ => rfl)
      · rfl
    · rfl

theorem processDamageToBase_units (s : GameState) (pt : PlayerType) :
    ((processDamageToBase s).players.get pt).units =
      (s.players.get pt).units := by
  unfold processDamageToBase
  rw [siegeBlock_units, siegeBlock_units]

theorem processDamageToBase_combats (s : GameState) :
    (processDamageToBase s).combats = s.combats := by
  unfold processDamageToBase
  rw [siegeBlock_combats, siegeBlock_combats]

theorem processDamageToBase_hexUnitAt (s : GameState)
    (pos : HexCoordinates) :
    hexUnitAt (processDamageToBase s) pos = hexUnitAt s pos := by
  unfold processDamageToBase
  rw [siegeBlock_hexUnitAt, siegeBlock_hexUnitAt]

theorem collectResources_foldl_units (pt : PlayerType) (hexes : List Hex) :
    ∀ (st : GameState),
      ((hexes.foldl (fun s hex =>
        match hex.unit with
        | some u =>
          { s with players :=
              (s.players.set u.owner
                { s.players.get u.owner with
                  points := (s.players.get u.owner).points +
                    hex.resourceValue.getD 0 }) }
        | none => s) st).players.get pt).units =
      (st.players.get pt).units := by
  induction hexes with
  | nil => intro st; rfl
  | cons h t ih =>
    intro st
    rw [List.foldl_cons, ih]
    cases hh : h.unit with
    | none => simp only [hh]
    | some u =>
      simp only [hh]
      exact Players.get_set_units _ _ _ _ rfl

theorem collectResources_units (s : GameState) (pt : PlayerType) :
    ((collectResources s).players.get pt).units =
      (s.players.get pt).units := by
  unfold collectResources
  exact collectResources_foldl_units pt _ s

theorem collectResources_foldl_hexGrid (hexes : List Hex) :
    ∀ (st : GameState),
      (hexes.foldl (fun s hex =>
        match hex.unit with
        | some u =>
          { s with players :=
              (s.players.set u.owner
                { s.players.get u.owner with
                  points := (s.players.get u.owner).points +
                    hex.resourceValue.getD 0 }) }
        | none => s) st).hexGrid = st.hexGrid := by
  induction hexes with
  | nil => intro st; rfl
  | cons h t ih =>
    intro st
    rw [List.foldl_cons, ih]
    cases hh : h.unit with
    | none => simp only [hh]
    | some u => simp only [hh]

theorem collectResources_hexGrid (s : GameState) :
    (collectResources s).hexGrid = s.hexGrid := by
  unfold collectResources
  exact collectResources_foldl_hexGrid _ s

theorem collectResources_foldl_combats (hexes : List Hex) :
    ∀ (st : GameState),
      (hexes.foldl (fun s hex =>
        match hex.unit with
        | some u =>
          { s with players :=
              (s.players.set u.owner
                { s.players.get u.owner with
                  points := (s.players.get u.owner).points +
                    hex.resourceValue.getD 0 }) }
        | none => s) st).combats = st.combats := by
  induction hexes with
  | nil => intro st; rfl
  | cons h t ih =>
    intro st
    rw [List.foldl_cons, ih]
    cases hh : h.unit with
    | none => simp only [hh]
    | some u => simp only [hh]

theorem collectResources_combats (s : GameState) :
    (collectResources s).combats = s.combats := by
  unfold collectResources
  exact collectResources_foldl_combats _ s

theorem startNextPlanningPhase_units (s : GameState) (pt : PlayerType) :
    ((startNextPlanningPhase s).players.get pt).units =
      ((s.players.get pt).units).map resetFlags := by
  have h1 : ((collectResources (processDamageToBase s)).players.get pt).units
      = (s.players.get pt).units := by
    rw [collectResources_units, processDamageToBase_units]
  cases pt with
  | player =>
    show ((collectResources (processDamageToBase s)).players.player.units).map
        _ = _
    have h2 : (collectResources (processDamageToBase s)).players.player.units
        = (s.players.get .player).units := h1
    rw [h2]
    rfl
  | ai =>
    show ((collectResources (processDamageToBase s)).players.ai.units).map
        _ = _
    have h2 : (collectResources (processDamageToBase s)).players.ai.units
        = (s.players.get .ai).units := h1
    rw [h2]
    rfl

theorem startNextPlanningPhase_combats (s : GameState) :
    (startNextPlanningPhase s).combats = s.combats := by
  show (collectResources (processDamageToBase s)).combats = s.combats
  rw [collectResources_combats, processDamageToBase_combats]

theorem startNextPlanningPhase_hexUnitAt (s : GameState)
    (pos : HexCoordinates) :
    hexUnitAt (startNextPlanningPhase s) pos = hexUnitAt s pos := by
  have : hexUnitAt (startNextPlanningPhase s) pos =
      hexUnitAt (collectResources (processDamageToBase s)) pos := by
    simp only [hexUnitAt, startNextPlanningPhase]
  rw [this]
  have h2 : hexUnitAt (collectResources (processDamageToBase s)) pos =
      hexUnitAt (processDamageToBase s) pos := by
    simp only [hexUnitAt, collectResources_hexGrid]
  rw [h2, processDamageToBase_hexUnitAt]

theorem startNextPlanningPhase_findUnitById (s : GameState)
    (pt : PlayerType) (uid : String) :
    findUnitById (startNextPlanningPhase s) pt uid =
      (findUnitById s pt uid).map resetFlags := by
  simp only [findUnitById]
  rw [startNextPlanningPhase_units]
  exact find?_map_unit resetFlags (fun _ => rfl) _ _

theorem get?_set_self {α : Type _} (l : List α) (n : Nat) (a c : α)
    (h : l.get? n = some c) : (l.set n a).get? n = some a := by
  induction l generalizing n with
  | nil => simp at h
  | cons x t ih =>
    cases n with
    | zero => rfl
    | succ m => exact ih m h

theorem hexUnit_none_of_eq (s' s : GameState) (pos : HexCoordinates)
    (hq : hexUnitAt s' pos = (hexUnitAt s pos).map (fun _ => none)) :
    ∀ h, findHexByCoordinates s'.hexGrid pos = some h → h.unit = none := by
  intro h hf
  simp only [hexUnitAt, hf, Option.map_some'] at hq
  cases hfind2 : findHexByCoordinates s.hexGrid pos with
  | none => rw [hfind2] at hq; simp [hexUnitAt] at hq
  | some x =>
    rw [hfind2] at hq
    simp only [hexUnitAt, Option.map_some'] at hq
    exact Option.some.inj hq

/-- Post-state characterization of the fight branch of resolveCombat,
stated against the explicit damage-fold chain the branch computes. -/
theorem fight_chain_spec (s : GameState) (i : Nat) (c : Combat)
    (P1 P2 : Rat) (dmgA dmgD : Int) (final : GameState)
    (hC : s.combats.get? i = some c)
    (hIn : ∀ u ∈ c.attackers ++ c.defenders,
      findUnitById s u.owner u.id = some u)
    (hNd : ((c.attackers ++ c.defenders).map Unit.id).Nodup)
    (hdA : dmgA = max 1 ⌊P1 / (c.attackers.length : Rat)⌋)
    (hdD : dmgD = max 1 ⌊P2 / (c.defenders.length : Rat)⌋)
    (hfinal : final =
      (let s1 := c.attackers.foldl
        (applyCombatDamage P1 c.attackers.length) s
       let s2 := c.defenders.foldl
        (applyCombatDamage P2 c.defenders.length) s1
       let s3 := { s2 with combats :=
        (s2.combats.set i { c with resolved := true }) }
       if s3.combats.all (fun cc => cc.resolved) then
         startNextPlanningPhase s3
       else s3)) :
    (final.combats.get? i = some { c with resolved := true }) ∧
    (∀ a ∈ c.attackers,
      (a.lifespan ≤ dmgA →
        findUnitById final a.owner a.id = none ∧
        ∀ h, findHexByCoordinates final.hexGrid a.position = some h →
          h.unit = none) ∧
      (dmgA < a.lifespan →
        ∃ w, findUnitById final a.owner a.id = some w ∧
          w.lifespan = a.lifespan - dmgA ∧ w.position = a.position ∧
          w.type = a.type)) ∧
    (∀ d ∈ c.defenders,
      (d.lifespan ≤ dmgD →
        findUnitById final d.owner d.id = none ∧
        ∀ h, findHexByCoordinates final.hexGrid d.position = some h →
          h.unit = none) ∧
      (dmgD < d.lifespan →
        ∃ w, findUnitById final d.owner d.id = some w ∧
          w.lifespan = d.lifespan - dmgD ∧ w.position = d.position ∧
          w.type = d.type)) := by
  have hNd2 : ((c.attackers.map Unit.id) ++ (c.defenders.map Unit.id)).Nodup := by
    rw [← List.map_append]; exact hNd
  have hNdA : (c.attackers.map Unit.id).Nodup := hNd2.of_append_left
  have hNdD : (c.defenders.map Unit.id).Nodup := hNd2.of_append_right
  have hdisj : ∀ x ∈ c.attackers.map Unit.id, x ∉ c.defenders.map Unit.id :=
    fun x hx => List.disjoint_of_nodup_append hNd2 hx
  have hInA : ∀ v ∈ c.attackers, findUnitById s v.owner v.id = some v :=
    fun v hv => hIn v (List.mem_append_left _ hv)
  set s1 := c.attackers.foldl (applyCombatDamage P1 c.attackers.length) s
    with hs1
  set s2 := c.defenders.foldl (applyCombatDamage P2 c.defenders.length) s1
    with hs2
  have hAspec := damageFold_spec P1 c.attackers.length c.attackers s hInA hNdA
  have hInD : ∀ v ∈ c.defenders, findUnitById s1 v.owner v.id = some v := by
    intro v hv
    rw [hs1, damageFold_findUnitById_ne]
    · exact hIn v (List.mem_append_right _ hv)
    · intro u hu hcontra
      exact hdisj u.id (List.mem_map_of_mem Unit.id hu)
        (hcontra ▸ List.mem_map_of_mem Unit.id hv)
  have hDspec := damageFold_spec P2 c.defenders.length c.defenders s1 hInD hNdD
  have hcomb2 : s2.combats = s.combats := by
    rw [hs2, damageFold_combats, hs1, damageFold_combats]
  -- the per-side facts transported to s2
  have hAdead : ∀ a ∈ c.attackers, a.lifespan ≤ dmgA →
      findUnitById s2 a.owner a.id = none ∧
      hexUnitAt s2 a.position =
        (hexUnitAt s a.position).map (fun _ => none) := by
    intro a ha hle
    have h1 := (hAspec a ha).1 (by rw [hdA] at hle; exact hle)
    constructor
    · rw [hs2, damageFold_findUnitById_ne]
      · exact h1.1
      · intro u hu hcontra
        have hm1 : a.id ∈ c.attackers.map Unit.id :=
          List.mem_map_of_mem Unit.id ha
        have hm2 : u.id ∈ c.defenders.map Unit.id :=
          List.mem_map_of_mem Unit.id hu
        rw [hcontra] at hm1
        exact hdisj u.id hm1 hm2
    · rcases damageFold_hexUnitAt P2 c.defenders.length c.defenders s1
          a.position with h2 | h2
      · rw [hs2, h2, h1.2]
      · rw [hs2, h2, h1.2, map_none_map_none]
  have hAalive : ∀ a ∈ c.attackers, dmgA < a.lifespan →
      findUnitById s2 a.owner a.id =
        some { a with lifespan := a.lifespan - dmgA } := by
    intro a ha hlt
    have h1 := (hAspec a ha).2 (by rw [hdA] at hlt; exact hlt)
    rw [hs2, damageFold_findUnitById_ne]
    · rw [h1, hdA]
    · intro u hu hcontra
      have hm1 : a.id ∈ c.attackers.map Unit.id :=
        List.mem_map_of_mem Unit.id ha
      have hm2 : u.id ∈ c.defenders.map Unit.id :=
        List.mem_map_of_mem Unit.id hu
      rw [hcontra] at hm1
      exact hdisj u.id hm1 hm2
  have hDdead : ∀ d ∈ c.defenders, d.lifespan ≤ dmgD →
      findUnitById s2 d.owner d.id = none ∧
      hexUnitAt s2 d.position =
        (hexUnitAt s d.position).map (fun _ => none) := by
    intro d hd hle
    have h1 := (hDspec d hd).1 (by rw [hdD] at hle; exact hle)
    refine ⟨h1.1, ?_⟩
    rcases damageFold_hexUnitAt P1 c.attackers.length c.attackers s
        d.position with h2 | h2
    · rw [h1.2, hs1, h2]
    · rw [h1.2, hs1, h2, map_none_map_none]
  have hDalive : ∀ d ∈ c.defenders, dmgD < d.lifespan →
      findUnitById s2 d.owner d.id =
        some { d with lifespan := d.lifespan - dmgD } := by
    intro d hd hlt
    have h1 := (hDspec d hd).2 (by rw [hdD] at hlt; exact hlt)
    rw [h1, hdD]
  -- the combats update
  have hget3 : (s2.combats.set i { c with resolved := true }).get? i =
      some { c with resolved := true } := by
    rw [hcomb2]; exact get?_set_self _ _ _ _ hC
  -- case on the final if
  subst hfinal
  by_cases hall : (({ s2 with combats :=
      (s2.combats.set i { c with resolved := true }) } :
      GameState).combats.all (fun cc => cc.resolved)) = true
  · rw [if_pos hall]
    refine ⟨?_, ?_, ?_⟩
    · rw [startNextPlanningPhase_combats]
      exact hget3
    · intro a ha
      constructor
      · intro hle
        obtain ⟨hf, hx⟩ := hAdead a ha hle
        constructor
        · rw [startNextPlanningPhase_findUnitById]
          have : findUnitById { s2 with combats :=
              (s2.combats.set i { c with resolved := true }) } a.owner a.id =
              findUnitById s2 a.owner a.id := rfl
          rw [this, hf]
          rfl
        · apply hexUnit_none_of_eq _ s
          rw [startNextPlanningPhase_hexUnitAt]
          exact hx
      · intro hlt
        have hf := hAalive a ha hlt
        refine ⟨resetFlags { a with lifespan := a.lifespan - dmgA }, ?_,
          rfl, rfl, rfl⟩
        rw [startNextPlanningPhase_findUnitById]
        have : findUnitById { s2 with combats :=
            (s2.combats.set i { c with resolved := true }) } a.owner a.id =
            findUnitById s2 a.owner a.id := rfl
        rw [this, hf]
        rfl
    · intro d hd
      constructor
      · intro hle
        obtain ⟨hf, hx⟩ := hDdead d hd hle
        constructor
        · rw [startNextPlanningPhase_findUnitById]
          have : findUnitById { s2 with combats :=
              (s2.combats.set i { c with resolved := true }) } d.owner d.id =
              findUnitById s2 d.owner d.id := rfl
          rw [this, hf]
          rfl
        · apply hexUnit_none_of_eq _ s
          rw [startNextPlanningPhase_hexUnitAt]
          exact hx
      · intro hlt
        have hf := hDalive d hd hlt
        refine ⟨resetFlags { d with lifespan := d.lifespan - dmgD }, ?_,
          rfl, rfl, rfl⟩
        rw [startNextPlanningPhase_findUnitById]
        have : findUnitById { s2 with combats :=
            (s2.combats.set i { c with resolved := true }) } d.owner d.id =
            findUnitById s2 d.owner d.id := rfl
        rw [this, hf]
        rfl
  · rw [if_neg hall]
    refine ⟨hget3, ?_, ?_⟩
    · intro a ha
      constructor
      · intro hle
        obtain ⟨hf, hx⟩ := hAdead a ha hle
        exact ⟨hf, hexUnit_none_of_eq _ s _ hx⟩
      · intro hlt
        exact ⟨{ a with lifespan := a.lifespan - dmgA },
          hAalive a ha hlt, rfl, rfl, rfl⟩
    · intro d hd
      constructor
      · intro hle
        obtain ⟨hf, hx⟩ := hDdead d hd hle
        exact ⟨hf, hexUnit_none_of_eq _ s _ hx⟩
      · intro hlt
        exact ⟨{ d with lifespan := d.lifespan - dmgD },
          hDalive d hd hlt, rfl, rfl, rfl⟩

/-- C5: resolveCombat with retreat = false sums the two sides' attack
powers, multiplies the defender total by 1.5 when the combat hex is
mountain or forest and a defender has the terrainBonus ability, deals each
attacker max(1, floor(defenderPower / #attackers)) and each defender
max(1, floor(attackerPower / #defenders)) lifespan damage, removes every
unit whose lifespan reaches 0 or below from both its owner's roster and
its hex, and marks the combat resolved. -/
theorem resolveCombat_fight_spec (s : GameState) (i : Nat) (c : Combat)
    (dmgA dmgD : Int)
    (hC : s.combats.get? i = some c)
    (hNR : c.resolved = false)
    (hIn : ∀ u ∈ c.attackers ++ c.defenders,
      findUnitById s u.owner u.id = some u)
    (hNd : ((c.attackers ++ c.defenders).map Unit.id).Nodup)
    (hdA : dmgA = max 1
      ⌊(if (match findHexByCoordinates s.hexGrid c.hexCoordinates with
            | some hex =>
              (hex.terrain == TerrainType.mountain ||
                hex.terrain == TerrainType.forest) &&
                c.defenders.any
                  (fun u => u.abilities.contains Ability.terrainBonus)
            | none => false) = true
          then (((c.defenders.map Unit.attackPower).sum : Int) : Rat) * (3/2)
          else (((c.defenders.map Unit.attackPower).sum : Int) : Rat)) /
        (c.attackers.length : Rat)⌋)
    (hdD : dmgD = max 1
      ⌊(((c.attackers.map Unit.attackPower).sum : Int) : Rat) /
        (c.defenders.length : Rat)⌋) :
    ((resolveCombat s i false).combats.get? i =
      some { c with resolved := true }) ∧
    (∀ a ∈ c.attackers,
      (a.lifespan ≤ dmgA →
        findUnitById (resolveCombat s i false) a.owner a.id = none ∧
        ∀ h, findHexByCoordinates (resolveCombat s i false).hexGrid
          a.position = some h → h.unit = none) ∧
      (dmgA < a.lifespan →
        ∃ w, findUnitById (resolveCombat s i false) a.owner a.id = some w ∧
          w.lifespan = a.lifespan - dmgA ∧ w.position = a.position ∧
          w.type = a.type)) ∧
    (∀ d ∈ c.defenders,
      (d.lifespan ≤ dmgD →
        findUnitById (resolveCombat s i false) d.owner d.id = none ∧
        ∀ h, findHexByCoordinates (resolveCombat s i false).hexGrid
          d.position = some h → h.unit = none) ∧
      (dmgD < d.lifespan →
        ∃ w, findUnitById (resolveCombat s i false) d.owner d.id = some w ∧
          w.lifespan = d.lifespan - dmgD ∧ w.position = d.position ∧
          w.type = d.type)) := by
  have hsumA : c.attackers.foldl (fun sum u => sum + u.attackPower) 0 =
      ((c.attackers.map Unit.attackPower).sum : Int) := by
    rw [foldl_add_attackPower]; exact zero_add _
  have hsumD : c.defenders.foldl (fun sum u => sum + u.attackPower) 0 =
      ((c.defenders.map Unit.attackPower).sum : Int) := by
    rw [foldl_add_attackPower]; exact zero_add _
  rw [← hsumA] at hdD
  rw [← hsumD] at hdA
  have heq : resolveCombat s i false =
      (let s1 := c.attackers.foldl
        (applyCombatDamage
          (if (match findHexByCoordinates s.hexGrid c.hexCoordinates with
              | some hex =>
                (hex.terrain == TerrainType.mountain ||
                  hex.terrain == TerrainType.forest) &&
                  c.defenders.any
                    (fun u => u.abilities.contains Ability.terrainBonus)
              | none => false) = true
            then ((c.defenders.foldl
              (fun sum u => sum + u.attackPower) 0 : Int) : Rat) * (3/2)
            else ((c.defenders.foldl
              (fun sum u => sum + u.attackPower) 0 : Int) : Rat))
          c.attackers.length) s
       let s2 := c.defenders.foldl
        (applyCombatDamage
          ((c.attackers.foldl (fun sum u => sum + u.attackPower) 0 :
            Int) : Rat)
          c.defenders.length) s1
       let s3 := { s2 with combats :=
        (s2.combats.set i { c with resolved := true }) }
       if s3.combats.all (fun cc => cc.resolved) then
         startNextPlanningPhase s3
       else s3) := by
    simp only [resolveCombat, hC, hNR, Bool.false_eq_true, if_false]
  exact fight_chain_spec s i c _ _ dmgA dmgD (resolveCombat s i false)
    hC hIn hNd hdA hdD heq

def pUnitC : Unit := mkUnit "pU" .infantry .player ⟨0,0⟩

def aUnitC : Unit := mkUnit "aU" .infantry .ai ⟨1,0⟩

/-- The single combat of Scenario C: one attacker, one defender, attack
power 2 each. -/
def combatC : Combat :=
  { hexCoordinates := ⟨0,0⟩, attackers := [aUnitC],
    defenders := [pUnitC], resolved := false }

/-- Scenario C state: two adjacent opposing infantry units in combat. -/
def stateC : GameState :=
  { hexGrid := [{ plainHex "h00" 0 0 with unit := some pUnitC },
                { plainHex "h10" 1 0 with unit := some aUnitC }],
    players :=
      { player := { id := "P", type := .player, points := 20,
                    units := [pUnitC] },
        ai := { id := "A", type := .ai, points := 20,
                units := [aUnitC] } },
    currentPhase := .combat, turnNumber := 1, planningTimeRemaining := 0,
    pendingMoves := [], pendingPurchases := [], combats := [combatC] }

/-- Witness for resolveCombat_fight_spec on Scenario C: both units of
attack power 2 take floor(2/1) = 2 damage, dropping lifespan from 5 to 3,
and the combat is marked resolved. -/
theorem resolveCombat_fight_spec_witness :
    (∃ w, findUnitById (resolveCombat stateC 0 false) .ai "aU" = some w ∧
      w.lifespan = 3) ∧
    (∃ w, findUnitById (resolveCombat stateC 0 false) .player "pU" =
      some w ∧ w.lifespan = 3) ∧
    (resolveCombat stateC 0 false).combats.get? 0 =
      some { combatC with resolved := true } := by
  have hbonus : (match findHexByCoordinates stateC.hexGrid
      combatC.hexCoordinates with
    | some hex =>
      (hex.terrain == TerrainType.mountain ||
        hex.terrain == TerrainType.forest) &&
        combatC.defenders.any
          (fun u => u.abilities.contains Ability.terrainBonus)
    | none => false) = false := by decide
  have H := resolveCombat_fight_spec stateC 0 combatC 2 2
    (by decide) (by decide) (by decide) (by decide)
    (by
      rw [hbonus]
      norm_num [show ((combatC.defenders.map Unit.attackPower).sum : Int) =
          2 from by decide,
        show combatC.attackers.length = 1 from by decide])
    (by
      norm_num [show ((combatC.attackers.map Unit.attackPower).sum : Int) =
          2 from by decide,
        show combatC.defenders.length = 1 from by decide])
  refine ⟨?_, ?_, H.1⟩
  · obtain ⟨w, hw, hl, _, _⟩ :=
      (H.2.1 aUnitC (by decide)).2 (by decide)
    exact ⟨w, hw, hl⟩
  · obtain ⟨w, hw, hl, _, _⟩ :=
      (H.2.2 pUnitC (by decide)).2 (by decide)
    exact ⟨w, hw, hl⟩

theorem mem_getNeighbors_ne (ct n : HexCoordinates)
    (h : n ∈ getNeighbors ct) : n ≠ ct := by
  simp only [getNeighbors, DIRECTIONS, List.map_cons, List.map_nil,
    List.mem_cons, List.not_mem_nil, or_false] at h
  rcases h with rfl | rfl | rfl | rfl | rfl | rfl <;>
    · intro heq
      rw [HexCoordinates.mk.injEq] at heq
      omega

theorem hexUnit_eq_of_hexUnitAt (s' : GameState) (pos : HexCoordinates)
    (v : Option Unit) (hq : hexUnitAt s' pos = some v) :
    ∀ h, findHexByCoordinates s'.hexGrid pos = some h → h.unit = v := by
  intro h hf
  simp only [hexUnitAt, hf, Option.map_some'] at hq
  exact Option.some.inj hq

theorem retreatUnit_eq (st : GameState) (d : Unit) (dest : HexCoordinates)
    (hfind : findUnitById st d.owner d.id = some d) :
    retreatUnit st d dest =
      ({ st with
          players :=
            (st.players.set d.owner
              { st.players.get d.owner with
                units :=
                  (updateFirstUnit (st.players.get d.owner).units d.id
                    (fun e =>
                      { e with position := dest,
                               isEngagedInCombat := false })) }),
          hexGrid :=
            (updateFirstHex
              (updateFirstHex st.hexGrid d.position
                (fun h => { h with unit := none }))
              dest
              (fun h => { h with unit := (some { d with position := dest, isEngagedInCombat := false }) })) },
       some { d with position := dest, isEngagedInCombat := false }) := by
  obtain ⟨i, hi, he⟩ := findIndexBy_of_find? _ _ _ hfind
  simp only [retreatUnit, hi, he]
  rw [set_at_findIndexBy _ d.id (fun e => { e with position := dest, isEngagedInCombat := false }) i d hi he]

/-- C6: resolveCombat with retreat = true moves the defender to the first
adjacent hex that exists, holds no unit and is not water (water allowed
only for helicopters); with no such hex the defender is destroyed in
place; the combat is marked resolved with retreating holding exactly the
successfully moved units.  Stated for the single-defender combats the
engine creates. -/
theorem resolveCombat_retreat_spec (s : GameState) (i : Nat) (c : Combat)
    (d : Unit)
    (hC : s.combats.get? i = some c)
    (hNR : c.resolved = false)
    (hD : c.defenders = [d])
    (hfind : findUnitById s d.owner d.id = some d) :
    (∀ dest rest,
      (getNeighbors d.position).filter (fun coord =>
        match findHexByCoordinates s.hexGrid coord with
        | some hex =>
          (hex.terrain != .water || d.type == .helicopter) &&
            hex.unit.isNone
        | none => false) = dest :: rest →
      ((resolveCombat s i true).combats.get? i =
        some { c with resolved := true, retreating := (some [{ d with position := dest, isEngagedInCombat := false }]) }) ∧
      (∃ w, findUnitById (resolveCombat s i true) d.owner d.id = some w ∧
        w.position = dest ∧ w.lifespan = d.lifespan ∧ w.id = d.id) ∧
      (∀ h, findHexByCoordinates (resolveCombat s i true).hexGrid dest =
        some h → h.unit = some
          { d with position := dest, isEngagedInCombat := false }) ∧
      (∀ h, findHexByCoordinates (resolveCombat s i true).hexGrid
        d.position = some h → h.unit = none)) ∧
    ((getNeighbors d.position).filter (fun coord =>
        match findHexByCoordinates s.hexGrid coord with
        | some hex =>
          (hex.terrain != .water || d.type == .helicopter) &&
            hex.unit.isNone
        | none => false) = [] →
      ((resolveCombat s i true).combats.get? i =
        some { c with resolved := true, retreating := some [] }) ∧
      findUnitById (resolveCombat s i true) d.owner d.id = none ∧
      (∀ h, findHexByCoordinates (resolveCombat s i true).hexGrid
        d.position = some h → h.unit = none)) := by
  have heq : resolveCombat s i true =
      (let acc := c.defenders.foldl
        (fun (acc : GameState × List Unit) defender =>
          match getValidRetreatPositions acc.1 defender with
          | retreatTo :: _ =>
            match retreatUnit acc.1 defender retreatTo with
            | (s2, some u) => (s2, acc.2 ++ [u])
            | (s2, none) => (s2, acc.2)
          | [] => (removeUnit acc.1 defender, acc.2)) (s, [])
       let s3 := { acc.1 with combats :=
        (acc.1.combats.set i
          { c with resolved := true, retreating := some acc.2 }) }
       if s3.combats.all (fun cc => cc.resolved) then
         startNextPlanningPhase s3
       else s3) := by
    simp only [resolveCombat, hC, hNR, Bool.false_eq_true, if_false,
      if_true]
  constructor
  · intro dest rest hv
    have hv' : getValidRetreatPositions s d = dest :: rest := hv
    have hdestmem : dest ∈ getNeighbors d.position := by
      have hm : dest ∈ getValidRetreatPositions s d := by
        rw [hv']; exact List.mem_cons_self _ _
      exact List.mem_of_mem_filter hm
    have hdne : dest ≠ d.position := mem_getNeighbors_ne _ _ hdestmem
    have hdesthex : ∃ hex0, findHexByCoordinates s.hexGrid dest =
        some hex0 := by
      have hm : dest ∈ getValidRetreatPositions s d := by
        rw [hv']; exact List.mem_cons_self _ _
      have hp := List.of_mem_filter hm
      cases hfd : findHexByCoordinates s.hexGrid dest with
      | none => rw [hfd] at hp; simp at hp
      | some hex0 => exact ⟨hex0, rfl⟩
    obtain ⟨hex0, hhex0⟩ := hdesthex
    set updated : Unit :=
      { d with position := dest, isEngagedInCombat := false } with hupd
    set st' : GameState :=
      { s with
          players :=
            (s.players.set d.owner
              { s.players.get d.owner with
                units :=
                  (updateFirstUnit (s.players.get d.owner).units d.id
                    (fun e =>
                      { e with position := dest,
                               isEngagedInCombat := false })) }),
          hexGrid :=
            (updateFirstHex
              (updateFirstHex s.hexGrid d.position
                (fun h => { h with unit := none }))
              dest
              (fun h => { h with unit := (some updated) })) } with hst'
    set s3 : GameState := { st' with combats :=
      (s.combats.set i
        { c with defenders := [d], resolved := true,
                 retreating := (some [updated]) }) }
      with hs3
    have hstep : resolveCombat s i true =
        (if s3.combats.all (fun cc => cc.resolved) = true then
          startNextPlanningPhase s3 else s3) := by
      rw [heq, hD]
      simp only [List.foldl_cons, List.foldl_nil, hv',
        retreatUnit_eq s d dest hfind]
      rfl
    have hget3 : s3.combats.get? i =
        some { c with resolved := true, retreating := (some [updated]) } := by
      have h1 : s3.combats.get? i =
          some { c with defenders := [d], resolved := true,
                        retreating := (some [updated]) } := by
        show (s.combats.set i _).get? i = _
        exact get?_set_self _ _ _ _ hC
      rw [h1, hD]
    have hfindu : findUnitById st' d.owner d.id = some updated := by
      simp only [findUnitById, hst', Players.get_set_self]
      rw [find?_updateFirstUnit_self _ _ (fun e => { e with position := dest, isEngagedInCombat := false }) (fun _ => rfl)]
      have h0 : (s.players.get d.owner).units.find?
          (fun v => v.id == d.id) = some d := hfind
      rw [h0]
      rfl
    have hfindu3 : findUnitById s3 d.owner d.id = some updated := hfindu
    have hhexdest : hexUnitAt s3 dest = some (some updated) := by
      show hexUnitAt st' dest = _
      simp only [hexUnitAt, hst']
      rw [findHexByCoordinates_updateFirstHex _ dest (fun h => { h with unit := (some updated) }) (fun _ => rfl)]
      rw [findHexByCoordinates_updateFirstHex_ne _ d.position dest (fun h => { h with unit := none }) (fun _ => rfl) hdne]
      rw [hhex0]
      rfl
    have hhexold : hexUnitAt s3 d.position =
        (hexUnitAt s d.position).map (fun _ => none) := by
      show hexUnitAt st' d.position = _
      simp only [hexUnitAt, hst']
      rw [findHexByCoordinates_updateFirstHex_ne _ dest d.position (fun h => { h with unit := (some updated) }) (fun _ => rfl) (Ne.symm hdne)]
      rw [findHexByCoordinates_updateFirstHex _ d.position (fun h => { h with unit := none }) (fun _ => rfl)]
      cases findHexByCoordinates s.hexGrid d.position <;> rfl
    rw [hstep]
    by_cases hall : s3.combats.all (fun cc => cc.resolved) = true
    · rw [if_pos hall]
      refine ⟨?_, ?_, ?_, ?_⟩
      · rw [startNextPlanningPhase_combats]
        exact hget3
      · refine ⟨resetFlags updated, ?_, rfl, rfl, rfl⟩
        rw [startNextPlanningPhase_findUnitById, hfindu3]
        rfl
      · apply hexUnit_eq_of_hexUnitAt
        rw [startNextPlanningPhase_hexUnitAt]
        exact hhexdest
      · apply hexUnit_none_of_eq _ s
        rw [startNextPlanningPhase_hexUnitAt]
        exact hhexold
    · rw [if_neg hall]
      refine ⟨hget3, ⟨updated, hfindu3, rfl, rfl, rfl⟩, ?_, ?_⟩
      · exact hexUnit_eq_of_hexUnitAt _ _ _ hhexdest
      · exact hexUnit_none_of_eq _ s _ hhexold
  · intro hv
    have hv' : getValidRetreatPositions s d = [] := hv
    set s3 : GameState := { removeUnit s d with combats :=
      (s.combats.set i
        { c with defenders := [d], resolved := true,
                 retreating := some [] }) } with hs3
    have hstep : resolveCombat s i true =
        (if s3.combats.all (fun cc => cc.resolved) = true then
          startNextPlanningPhase s3 else s3) := by
      rw [heq, hD]
      simp only [List.foldl_cons, List.foldl_nil, hv']
      rfl
    have hget3 : s3.combats.get? i =
        some { c with resolved := true, retreating := some [] } := by
      have h1 : s3.combats.get? i =
          some { c with defenders := [d], resolved := true,
                        retreating := some [] } := by
        show (s.combats.set i _).get? i = _
        exact get?_set_self _ _ _ _ hC
      rw [h1, hD]
    have hfindu : findUnitById s3 d.owner d.id = none := by
      show findUnitById (removeUnit s d) d.owner d.id = none
      rw [removeUnit_findUnitById, if_pos (And.intro rfl rfl)]
    have hhexold : hexUnitAt s3 d.position =
        (hexUnitAt s d.position).map (fun _ => none) :=
      removeUnit_hexUnitAt_self s d
    rw [hstep]
    by_cases hall : s3.combats.all (fun cc => cc.resolved) = true
    · rw [if_pos hall]
      refine ⟨?_, ?_, ?_⟩
      · rw [startNextPlanningPhase_combats]
        exact hget3
      · rw [startNextPlanningPhase_findUnitById, hfindu]
        rfl
      · apply hexUnit_none_of_eq _ s
        rw [startNextPlanningPhase_hexUnitAt]
        exact hhexold
    · rw [if_neg hall]
      exact ⟨hget3, hfindu, hexUnit_none_of_eq _ s _ hhexold⟩

/-- Scenario C state extended with an empty plain hex southeast of the
defender, giving it a retreat destination. -/
def stateR : GameState :=
  { stateC with hexGrid := stateC.hexGrid ++ [plainHex "h01" 0 1] }

/-- Witness for resolveCombat_retreat_spec on stateR: the defender flees
to the first valid adjacent hex (0,1) and the combat is resolved with
exactly that unit retreating. -/
theorem resolveCombat_retreat_spec_witness :
    (getNeighbors pUnitC.position).filter (fun coord =>
      match findHexByCoordinates stateR.hexGrid coord with
      | some hex =>
        (hex.terrain != .water || pUnitC.type == .helicopter) &&
          hex.unit.isNone
      | none => false) = [⟨0,1⟩] ∧
    (∃ w, findUnitById (resolveCombat stateR 0 true) .player "pU" =
      some w ∧ w.position = ⟨0,1⟩) ∧
    (resolveCombat stateR 0 true).combats.get? 0 =
      some { combatC with resolved := true, retreating := (some [{ pUnitC with position := ⟨0,1⟩, isEngagedInCombat := false }]) } := by
  have H := resolveCombat_retreat_spec stateR 0 combatC pUnitC
    (by decide) (by decide) (by decide) (by decide)
  have hf : (getNeighbors pUnitC.position).filter (fun coord =>
      match findHexByCoordinates stateR.hexGrid coord with
      | some hex =>
        (hex.terrain != .water || pUnitC.type == .helicopter) &&
          hex.unit.isNone
      | none => false) = [⟨0,1⟩] := by decide
  obtain ⟨hcmb, ⟨w, hw, hpos, _, _⟩, _, _⟩ := H.1 ⟨0,1⟩ [] hf
  exact ⟨hf, ⟨w, hw, hpos⟩, hcmb⟩


/-! ## findPath (hexUtils.ts)

The source's movement costs are the float values 1 (default), 2 (mountain)
and 1.5 (forest), and every g-score and f-score is a sum of such costs
plus an integer heuristic.  All these values are exact multiples of one
half, so the embedding stores them in half units as Int (2, 4 and 3), and
the maxDistance argument is likewise taken in half units: every call site
passes twice the source's argument.  Doubling preserves every comparison,
every sum and the zero test, so the algorithm's behaviour is unchanged;
it keeps the arithmetic kernel-computable. -/

/-- Movement cost of entering a hex, in half units (source: 1 default, 2
mountain, 1.5 forest). -/
def terrainCostHalf (t : TerrainType) : Int :=
  match t with
  | .mountain => 4
  | .forest => 3
  | _ => 2

/-- The corresponding source costs as rationals. -/
def terrainCost (t : TerrainType) : Rat :=
  match t with
  | .mountain => 2
  | .forest => mkRat 3 2
  | _ => 1

/-- Pointwise update of a map modelled as a function. -/
def mapUpdate {β : Type _} (f : HexCoordinates → Option β)
    (key : HexCoordinates) (v : β) : HexCoordinates → Option β :=
  fun c => if c = key then some v else f c

/-- The mutable state of the A* loop: the open set in insertion order and
the three maps keyed by hex coordinates (the source keys maps by the
string q,r which is in bijection with the coordinates). -/
structure AStarState where
  openSet : List HexCoordinates
  cameFrom : HexCoordinates → Option HexCoordinates
  gScore : HexCoordinates → Option Int
  fScore : HexCoordinates → Option Int

/-- One step of the open-set scan for the lowest f-score: the score is
read with JavaScript's fScore.get(key) or Infinity, so a missing or zero
score acts as infinity and is never selected; the comparison is strict,
keeping the earliest minimum. -/
def selStep (fScore : HexCoordinates → Option Int)
    (best : Option (HexCoordinates × Int)) (k : HexCoordinates) :
    Option (HexCoordinates × Int) :=
  match (match fScore k with
         | some v => if v = 0 then none else some v
         | none => none) with
  | none => best
  | some v =>
    match best with
    | none => some (k, v)
    | some kv => if v < kv.2 then some (k, v) else best

/-- The open-set scan for the hex with the lowest f-score.  Returns none
when nothing is selected (the source then breaks out of the loop and
returns null). -/
def selectLowest (openSet : List HexCoordinates)
    (fScore : HexCoordinates → Option Int) : Option HexCoordinates :=
  (openSet.foldl (selStep fScore) none).map Prod.fst

/-- Relaxation of one neighbor: skipped when no hex exists there or the
terrain is water; the tentative g-score must stay within maxDistance; the
update fires when the neighbor has no g-score, a zero g-score (falsy in
the source, read as infinity) or a larger one. -/
def relaxNeighbor (hexGrid : List Hex) (goal : HexCoordinates)
    (maxDistance : Int) (current : HexCoordinates) (st : AStarState)
    (neighbor : HexCoordinates) : AStarState :=
  match findHexByCoordinates hexGrid neighbor with
  | none => st
  | some neighborHex =>
    if neighborHex.terrain = .water then st
    else
      let movementCost := terrainCostHalf neighborHex.terrain
      let tentativeGScore := (st.gScore current).getD 0 + movementCost
      if tentativeGScore ≤ maxDistance then
        let improves : Bool :=
          match st.gScore neighbor with
          | none => true
          | some g => if g = 0 then true else decide (tentativeGScore < g)
        if improves then
          { openSet :=
              if neighbor ∈ st.openSet then st.openSet
              else st.openSet ++ [neighbor],
            cameFrom := mapUpdate st.cameFrom neighbor current,
            gScore := mapUpdate st.gScore neighbor tentativeGScore,
            fScore := mapUpdate st.fScore neighbor
              (tentativeGScore + 2 * getHexDistance neighbor goal) }
        else st
      else st

/-- Path reconstruction through the cameFrom map, prepending parents until
the start is reached.  The fuel bounds the chain length (the source's
while loop); under the loop invariants the chain strictly descends in
g-score, so enough fuel always exists and none is never returned by a run
of the full algorithm. -/
def reconstructPath (cameFrom : HexCoordinates → Option HexCoordinates)
    (start : HexCoordinates) : Nat → HexCoordinates →
    Option (List HexCoordinates)
  | fuel, curr =>
    if curr = start then some [curr]
    else
      match fuel with
      | 0 => none
      | fuel' + 1 =>
        match cameFrom curr with
        | none => none
        | some p =>
          (reconstructPath cameFrom start fuel' p).map (fun l => l ++ [curr])

/-- The A* main loop.  The fuel bounds the number of iterations; the
source's loop terminates because a node re-enters the open set only with
a strictly smaller g-score, g-scores being nonnegative half-unit values
bounded by maxDistance.  On fuel exhaustion none is returned. -/
def findPathAux (hexGrid : List Hex) (start goal : HexCoordinates)
    (maxDistance : Int) (reconFuel : Nat) :
    Nat → AStarState → Option (List HexCoordinates)
  | 0, _ => none
  | fuel + 1, st =>
    if st.openSet.isEmpty then none
    else
      match selectLowest st.openSet st.fScore with
      | none => none
      | some current =>
        if current = goal then
          reconstructPath st.cameFrom start reconFuel current
        else
          let st1 := { st with openSet := st.openSet.erase current }
          let st2 := (getNeighbors current).foldl
            (relaxNeighbor hexGrid goal maxDistance current) st1
          findPathAux hexGrid start goal maxDistance reconFuel fuel st2

/-- findPath: A* from start to goal over the grid with the cost budget
maxDistance (in half units, twice the source's argument). -/
def findPath (start goal : HexCoordinates) (hexGrid : List Hex)
    (maxDistance : Int) : Option (List HexCoordinates) :=
  let st0 : AStarState :=
    { openSet := [start],
      cameFrom := fun _ => none,
      gScore := mapUpdate (fun _ => none) start 0,
      fScore := mapUpdate (fun _ => none) start
        (2 * getHexDistance start goal) }
  findPathAux hexGrid start goal maxDistance (maxDistance.toNat + 1)
    ((hexGrid.length + 1) * (maxDistance.toNat + 2) + 1) st0


/-! ### Soundness infrastructure for findPath -/

/-- Cost (in half units) of the hex at a coordinate; 0 where no hex exists
(only applied to coordinates with an existing hex). -/
def coordCostHalf (hexGrid : List Hex) (c : HexCoordinates) : Int :=
  match findHexByCoordinates hexGrid c with
  | some hx => terrainCostHalf hx.terrain
  | none => 0

/-- Cost of the hex at a coordinate in the source's units (1 / 1.5 / 2). -/
def coordCost (hexGrid : List Hex) (c : HexCoordinates) : Rat :=
  match findHexByCoordinates hexGrid c with
  | some hx => terrainCost hx.terrain
  | none => 0

theorem terrainCostHalf_ge_two (t : TerrainType) : 2 ≤ terrainCostHalf t := by
  cases t <;> simp [terrainCostHalf]

theorem terrainCost_twice (t : TerrainType) :
    2 * terrainCost t = ((terrainCostHalf t : Int) : Rat) := by
  cases t <;> simp [terrainCost, terrainCostHalf] <;> norm_num [Rat.mkRat_eq_div]

/-- Invariant on the cameFrom / gScore maps: every recorded parent link
was written by a relaxation, so the child is a neighbor of the parent,
sits on an existing non-water hex, and carries a g-score within
maxDistance that covers the parent's g-score plus the step cost. -/
def ChainInv (hexGrid : List Hex) (start : HexCoordinates) (maxDistance : Int)
    (cameFrom : HexCoordinates → Option HexCoordinates)
    (gScore : HexCoordinates → Option Int) : Prop :=
  ∀ n p, cameFrom n = some p →
    n ∈ getNeighbors p ∧
    (∃ hx, findHexByCoordinates hexGrid n = some hx ∧ hx.terrain ≠ .water) ∧
    (∃ gn, gScore n = some gn ∧ gn ≤ maxDistance ∧
      ∃ gp0, 0 ≤ gp0 ∧ gn = gp0 + coordCostHalf hexGrid n ∧
        (p ≠ start → ∃ gp, gScore p = some gp ∧ gp ≤ gp0)) ∧
    (p ≠ start → cameFrom p ≠ none)

/-- The full loop invariant of the A* search. -/
structure AInv (hexGrid : List Hex) (start goal : HexCoordinates)
    (maxDistance : Int) (st : AStarState) : Prop where
  openScored : ∀ n ∈ st.openSet, ∃ g, st.gScore n = some g
  gNonneg : ∀ n g, st.gScore n = some g → 0 ≤ g ∧ (n ≠ start → 2 ≤ g)
  chain : ChainInv hexGrid start maxDistance st.cameFrom st.gScore
  openChain : ∀ n ∈ st.openSet, n ≠ start → st.cameFrom n ≠ none
  fStart : st.fScore start = some (2 * getHexDistance start goal) ∨
    2 ≤ maxDistance

theorem foldl_preserves_mem {α β : Type _} (P : β → Prop) (f : β → α → β) :
    ∀ (l : List α) (b : β), (∀ a ∈ l, ∀ x, P x → P (f x a)) → P b →
      P (l.foldl f b) := by
  intro l
  induction l with
  | nil => intro b _ hb; exact hb
  | cons a t ih =>
    intro b h hb
    rw [List.foldl_cons]
    exact ih (f b a) (fun a' ha' x hx => h a' (List.mem_cons_of_mem _ ha') x hx)
      (h a (List.mem_cons_self a t) b hb)


theorem selStep_cases (fScore : HexCoordinates → Option Int)
    (best : Option (HexCoordinates × Int)) (k : HexCoordinates)
    (kv : HexCoordinates × Int) (h : selStep fScore best k = some kv) :
    best = some kv ∨ (kv.1 = k ∧ fScore k = some kv.2 ∧ kv.2 ≠ 0) := by
  rcases hf : fScore k with _ | v
  · simp only [selStep, hf] at h; exact Or.inl h
  · by_cases hv : v = 0
    · simp only [selStep, hf, hv, if_pos rfl] at h; exact Or.inl h
    · simp only [selStep, hf, if_neg hv] at h
      rcases best with _ | kv0
      · simp only [Option.some.injEq] at h
        exact Or.inr ⟨h ▸ rfl, by rw [← h], h ▸ hv⟩
      · by_cases hlt : v < kv0.2
        · simp only [if_pos hlt, Option.some.injEq] at h
          exact Or.inr ⟨h ▸ rfl, by rw [← h], h ▸ hv⟩
        · simp only [if_neg hlt] at h; exact Or.inl h

theorem selFold_good (fScore : HexCoordinates → Option Int)
    (kv : HexCoordinates × Int) :
    ∀ (l : List HexCoordinates) (acc : Option (HexCoordinates × Int)),
      l.foldl (selStep fScore) acc = some kv →
      acc = some kv ∨ (kv.1 ∈ l ∧ fScore kv.1 = some kv.2 ∧ kv.2 ≠ 0) := by
  intro l
  induction l with
  | nil => intro acc h; exact Or.inl h
  | cons k t ih =>
    intro acc h
    rw [List.foldl_cons] at h
    rcases ih _ h with hstep | hmem
    · rcases selStep_cases fScore acc k kv hstep with h1 | h2
      · exact Or.inl h1
      · exact Or.inr ⟨h2.1 ▸ List.mem_cons_self k t, h2.1 ▸ h2.2.1, h2.2.2⟩
    · exact Or.inr ⟨List.mem_cons_of_mem _ hmem.1, hmem.2⟩

theorem selectLowest_mem (openSet : List HexCoordinates)
    (fScore : HexCoordinates → Option Int) (c : HexCoordinates)
    (h : selectLowest openSet fScore = some c) :
    c ∈ openSet ∧ ∃ v, fScore c = some v ∧ v ≠ 0 := by
  simp only [selectLowest, Option.map_eq_some'] at h
  rcases h with ⟨kv, hfold, hfst⟩
  rcases selFold_good fScore kv openSet none hfold with hno | hgood
  · exact absurd hno (by simp)
  · exact ⟨hfst ▸ hgood.1, kv.2, hfst ▸ hgood.2.1, hgood.2.2⟩
theorem relaxNeighbor_eq (hexGrid : List Hex) (goal : HexCoordinates)
    (maxD : Int) (current : HexCoordinates) (st : AStarState)
    (n : HexCoordinates) :
    relaxNeighbor hexGrid goal maxD current st n = st ∨
    (∃ hx, findHexByCoordinates hexGrid n = some hx ∧ hx.terrain ≠ .water ∧
      (st.gScore current).getD 0 + terrainCostHalf hx.terrain ≤ maxD ∧
      (st.gScore n = none ∨ st.gScore n = some 0 ∨
        ∃ g, st.gScore n = some g ∧
          (st.gScore current).getD 0 + terrainCostHalf hx.terrain < g) ∧
      relaxNeighbor hexGrid goal maxD current st n =
        { openSet := if n ∈ st.openSet then st.openSet else st.openSet ++ [n],
          cameFrom := mapUpdate st.cameFrom n current,
          gScore := mapUpdate st.gScore n
            ((st.gScore current).getD 0 + terrainCostHalf hx.terrain),
          fScore := mapUpdate st.fScore n
            ((st.gScore current).getD 0 + terrainCostHalf hx.terrain +
              2 * getHexDistance n goal) }) := by
  rcases hhex : findHexByCoordinates hexGrid n with _ | hx
  · exact Or.inl (by simp only [relaxNeighbor, hhex])
  · by_cases hw : hx.terrain = .water
    · exact Or.inl (by simp only [relaxNeighbor, hhex, if_pos hw])
    · by_cases hmax : (st.gScore current).getD 0 + terrainCostHalf hx.terrain ≤ maxD
      · rcases hgn : st.gScore n with _ | g
        · refine Or.inr ⟨hx, rfl, hw, hmax, Or.inl rfl, ?_⟩
          simp only [relaxNeighbor, hhex, if_neg hw, if_pos hmax, hgn,
            if_true]
        · by_cases hg0 : g = 0
          · refine Or.inr ⟨hx, rfl, hw, hmax, Or.inr (Or.inl (by rw [hg0])), ?_⟩
            simp only [relaxNeighbor, hhex, if_neg hw, if_pos hmax, hgn,
              if_pos hg0, if_true]
          · by_cases hlt : (st.gScore current).getD 0 + terrainCostHalf hx.terrain < g
            · refine Or.inr ⟨hx, rfl, hw, hmax, Or.inr (Or.inr ⟨g, rfl, hlt⟩), ?_⟩
              simp only [relaxNeighbor, hhex, if_neg hw, if_pos hmax, hgn,
                if_neg hg0, hlt, decide_True, if_true]
            · refine Or.inl ?_
              simp only [relaxNeighbor, hhex, if_neg hw, if_pos hmax, hgn,
                if_neg hg0, hlt, decide_False, if_false, Bool.false_eq_true]
      · exact Or.inl (by simp only [relaxNeighbor, hhex, if_neg hw, if_neg hmax])

theorem terrainCostHalf_nonneg (t : TerrainType) : 0 ≤ terrainCostHalf t :=
  le_trans (by norm_num) (terrainCostHalf_ge_two t)

theorem mapUpdate_self {β : Type _} (f : HexCoordinates → Option β)
    (key : HexCoordinates) (v : β) : mapUpdate f key v key = some v := by
  simp [mapUpdate]

theorem mapUpdate_ne {β : Type _} (f : HexCoordinates → Option β)
    (key c : HexCoordinates) (v : β) (h : c ≠ key) :
    mapUpdate f key v c = f c := by
  simp [mapUpdate, h]


theorem relax_preserves (hexGrid : List Hex) (start goal : HexCoordinates)
    (maxD : Int) (current : HexCoordinates) (gc : Int) (st : AStarState)
    (n : HexCoordinates) (hmem : n ∈ getNeighbors current)
    (hInv : AInv hexGrid start goal maxD st)
    (hgc : st.gScore current = some gc)
    (hcc : current ≠ start → st.cameFrom current ≠ none) :
    AInv hexGrid start goal maxD
      (relaxNeighbor hexGrid goal maxD current st n) ∧
    (relaxNeighbor hexGrid goal maxD current st n).gScore current = some gc ∧
    (current ≠ start →
      (relaxNeighbor hexGrid goal maxD current st n).cameFrom current ≠
        none) := by
  have hne : n ≠ current := mem_getNeighbors_ne current n hmem
  rcases relaxNeighbor_eq hexGrid goal maxD current st n with heq |
    ⟨hx, hhex, hw, hmax, himp, heq⟩
  · rw [heq]; exact ⟨hInv, hgc, hcc⟩
  · simp only [hgc, Option.getD_some] at heq hmax himp
    rw [heq]
    have hgc0 : 0 ≤ gc := (hInv.gNonneg current gc hgc).1
    have htent2 : 2 ≤ gc + terrainCostHalf hx.terrain := by
      have := terrainCostHalf_ge_two hx.terrain; omega
    have hcost : coordCostHalf hexGrid n = terrainCostHalf hx.terrain := by
      simp [coordCostHalf, hhex]
    have hopen : ∀ m,
        m ∈ (if n ∈ st.openSet then st.openSet else st.openSet ++ [n]) →
        m = n ∨ m ∈ st.openSet := by
      intro m hm
      by_cases h : n ∈ st.openSet
      · rw [if_pos h] at hm; exact Or.inr hm
      · rw [if_neg h] at hm
        rcases List.mem_append.mp hm with h1 | h2
        · exact Or.inr h1
        · exact Or.inl (List.mem_singleton.mp h2)
    refine ⟨⟨?_, ?_, ?_, ?_, ?_⟩, ?_, ?_⟩
    · intro m hm
      by_cases hmn : m = n
      · exact ⟨gc + terrainCostHalf hx.terrain, hmn ▸ mapUpdate_self _ _ _⟩
      · rcases hopen m hm with h1 | h2
        · exact absurd h1 hmn
        · rcases hInv.openScored m h2 with ⟨g, hg⟩
          exact ⟨g, (mapUpdate_ne _ _ _ _ hmn).trans hg⟩
    · intro m g hg
      have hg2 : mapUpdate st.gScore n (gc + terrainCostHalf hx.terrain) m =
          some g := hg
      by_cases hmn : m = n
      · rw [hmn, mapUpdate_self] at hg2
        cases hg2
        exact ⟨by omega, fun _ => htent2⟩
      · rw [mapUpdate_ne _ _ _ _ hmn] at hg2
        exact hInv.gNonneg m g hg2
    · intro m p hcf
      have hcf2 : mapUpdate st.cameFrom n current m = some p := hcf
      by_cases hmn : m = n
      · subst hmn
        rw [mapUpdate_self] at hcf2
        cases hcf2
        refine ⟨hmem, ⟨hx, hhex, hw⟩,
          ⟨gc + terrainCostHalf hx.terrain, mapUpdate_self _ _ _, hmax,
            gc, hgc0, by rw [hcost], ?_⟩, ?_⟩
        · intro _
          exact ⟨gc, (mapUpdate_ne _ _ _ _ (Ne.symm hne)).trans hgc, le_refl gc⟩
        · intro hcs
          show mapUpdate st.cameFrom m current current ≠ none
          rw [mapUpdate_ne _ _ _ _ (Ne.symm hne)]
          exact hcc hcs
      · rw [mapUpdate_ne _ _ _ _ hmn] at hcf2
        rcases hInv.chain m p hcf2 with ⟨hmemo, hhexo, ⟨gm, hgm, hgmax, gp0,
          hgp00, hgmeq, hpclause⟩, hccont⟩
        refine ⟨hmemo, hhexo,
          ⟨gm, (mapUpdate_ne _ _ _ _ hmn).trans hgm, hgmax, gp0, hgp00, hgmeq,
            ?_⟩, ?_⟩
        · intro hps
          by_cases hpn : p = n
          · subst hpn
            rcases hpclause hps with ⟨gp, hgp, hgple⟩
            rcases himp with h1 | h2 | ⟨g', hg', hlt⟩
            · rw [hgp] at h1; cases h1
            · rw [hgp] at h2
              cases h2
              have := (hInv.gNonneg p 0 hgp).2 hps
              omega
            · rw [hgp] at hg'
              cases hg'
              exact ⟨gc + terrainCostHalf hx.terrain, mapUpdate_self _ _ _,
                le_trans (le_of_lt hlt) hgple⟩
          · rcases hpclause hps with ⟨gp, hgp, hgple⟩
            exact ⟨gp, (mapUpdate_ne _ _ _ _ hpn).trans hgp, hgple⟩
        · intro hps
          show mapUpdate st.cameFrom n current p ≠ none
          by_cases hpn : p = n
          · rw [hpn, mapUpdate_self]; exact Option.some_ne_none _
          · rw [mapUpdate_ne _ _ _ _ hpn]; exact hccont hps
    · intro m hm hms
      show mapUpdate st.cameFrom n current m ≠ none
      by_cases hmn : m = n
      · rw [hmn, mapUpdate_self]; exact Option.some_ne_none _
      · rw [mapUpdate_ne _ _ _ _ hmn]
        rcases hopen m hm with h1 | h2
        · exact absurd h1 hmn
        · exact hInv.openChain m h2 hms
    · by_cases hns : n = start
      · exact Or.inr (by omega)
      · rcases hInv.fStart with h1 | h2
        · exact Or.inl ((mapUpdate_ne _ _ _ _ (fun h => hns h.symm)).trans h1)
        · exact Or.inr h2
    · exact (mapUpdate_ne _ _ _ _ (Ne.symm hne)).trans hgc
    · intro hcs
      show mapUpdate st.cameFrom n current current ≠ none
      rw [mapUpdate_ne _ _ _ _ (Ne.symm hne)]
      exact hcc hcs

theorem reconstructPath_start
    (cameFrom : HexCoordinates → Option HexCoordinates)
    (start : HexCoordinates) (fuel : Nat) :
    reconstructPath cameFrom start fuel start = some [start] := by
  cases fuel <;> simp [reconstructPath]

theorem reconstructPath_sound (hexGrid : List Hex) (start : HexCoordinates)
    (maxD : Int) (cameFrom : HexCoordinates → Option HexCoordinates)
    (gScore : HexCoordinates → Option Int)
    (hC : ChainInv hexGrid start maxD cameFrom gScore) :
    ∀ (fuel : Nat) (curr : HexCoordinates) (path : List HexCoordinates),
      reconstructPath cameFrom start fuel curr = some path →
      path.head? = some start ∧ path.getLast? = some curr ∧
      path.Chain' (fun a b => b ∈ getNeighbors a) ∧
      (∀ c ∈ path.tail, ∃ hx, findHexByCoordinates hexGrid c = some hx ∧
        hx.terrain ≠ .water) ∧
      ((path.tail.map (coordCostHalf hexGrid)).sum = 0 ∧ curr = start ∨
        ∃ g, gScore curr = some g ∧ g ≤ maxD ∧
          (path.tail.map (coordCostHalf hexGrid)).sum ≤ g) := by
  intro fuel
  induction fuel with
  | zero =>
    intro curr path h
    by_cases hcs : curr = start
    · simp only [reconstructPath, if_pos hcs, Option.some.injEq] at h
      rw [← h, hcs]
      exact ⟨rfl, rfl, List.chain'_singleton _, by simp, Or.inl ⟨rfl, rfl⟩⟩
    · simp only [reconstructPath, if_neg hcs] at h
      exact Option.noConfusion h
  | succ f ih =>
    intro curr path h
    by_cases hcs : curr = start
    · simp only [reconstructPath, if_pos hcs, Option.some.injEq] at h
      rw [← h, hcs]
      exact ⟨rfl, rfl, List.chain'_singleton _, by simp, Or.inl ⟨rfl, rfl⟩⟩
    · simp only [reconstructPath, if_neg hcs] at h
      rcases hcf : cameFrom curr with _ | p
      · rw [hcf] at h; cases h
      · rw [hcf, Option.map_eq_some'] at h
        rcases h with ⟨l, hrec, happ⟩
        rcases hC curr p hcf with ⟨hmem, ⟨hx, hhex, hwx⟩,
          ⟨gn, hgn, hgmax, gp0, hgp0, hgneq, hpcl⟩, _⟩
        rcases ih p l hrec with ⟨hhead, hlast, hchain, hwater, hsum⟩
        have hcost : coordCostHalf hexGrid curr = terrainCostHalf hx.terrain := by
          simp [coordCostHalf, hhex]
        have hbound : (l.tail.map (coordCostHalf hexGrid)).sum ≤ gp0 := by
          by_cases hps : p = start
          · rw [hps] at hrec
            rw [reconstructPath_start, Option.some.injEq] at hrec
            rw [← hrec]
            simpa using hgp0
          · rcases hsum with ⟨_, h1⟩ | ⟨gp, hgp, _, hle⟩
            · exact absurd h1 hps
            · rcases hpcl hps with ⟨gp', hgp', hgple⟩
              rw [hgp] at hgp'
              cases hgp'
              exact le_trans hle hgple
        rcases l with _ | ⟨a, t⟩
        · cases hhead
        · have ha : a = start := by
            simpa using hhead
          rw [← happ]
          refine ⟨by simpa using hhead, by rw [List.getLast?_concat], ?_, ?_, ?_⟩
          · refine List.chain'_append.mpr ⟨hchain, List.chain'_singleton _, ?_⟩
            intro x hxl y hyh
            have hxp : x = p := by
              rw [hlast] at hxl
              simpa using hxl.symm
            have hyc : y = curr := by
              simpa using hyh.symm
            rw [hxp, hyc]
            exact hmem
          · intro c hcm
            simp only [List.cons_append, List.tail_cons, List.mem_append,
              List.mem_singleton] at hcm
            rcases hcm with h1 | h2
            · exact hwater c h1
            · exact h2 ▸ ⟨hx, hhex, hwx⟩
          · refine Or.inr ⟨gn, hgn, hgmax, ?_⟩
            simp only [List.cons_append, List.tail_cons, List.map_append,
              List.sum_append, List.map_cons, List.map_nil, List.sum_cons,
              List.sum_nil]
            simp only [List.tail_cons] at hbound
            rw [hcost]
            omega

theorem getHexDistance_self (a : HexCoordinates) : getHexDistance a a = 0 := by
  simp [getHexDistance]

theorem findPathAux_sound (hexGrid : List Hex) (start goal : HexCoordinates)
    (maxD : Int) (reconFuel : Nat) :
    ∀ (fuel : Nat) (st : AStarState) (path : List HexCoordinates),
      AInv hexGrid start goal maxD st →
      findPathAux hexGrid start goal maxD reconFuel fuel st = some path →
      path.head? = some start ∧ path.getLast? = some goal ∧
      path.Chain' (fun a b => b ∈ getNeighbors a) ∧
      (∀ c ∈ path.tail, ∃ hx, findHexByCoordinates hexGrid c = some hx ∧
        hx.terrain ≠ .water) ∧
      (path.tail.map (coordCostHalf hexGrid)).sum ≤ maxD := by
  intro fuel
  induction fuel with
  | zero =>
    intro st path _ h
    simp only [findPathAux] at h
    exact Option.noConfusion h
  | succ f ih =>
    intro st path hInv h
    simp only [findPathAux] at h
    by_cases hemp : st.openSet.isEmpty = true
    · rw [if_pos hemp] at h; exact Option.noConfusion h
    · rw [if_neg hemp] at h
      rcases hsel : selectLowest st.openSet st.fScore with _ | current
      · simp only [hsel] at h
        exact Option.noConfusion h
      · simp only [hsel] at h
        rcases selectLowest_mem _ _ _ hsel with ⟨hcmem, v, hfv, hv0⟩
        by_cases hcg : current = goal
        · rw [if_pos hcg] at h
          rcases reconstructPath_sound hexGrid start maxD st.cameFrom
            st.gScore hInv.chain reconFuel current path h with
            ⟨h1, h2, h3, h4, h5⟩
          refine ⟨h1, hcg ▸ h2, h3, h4, ?_⟩
          rcases h5 with ⟨hz, hcs⟩ | ⟨g, hg, hgm, hle⟩
          · rw [hz]
            rcases hInv.fStart with h6 | h6
            · exfalso
              apply hv0
              have hsg : start = goal := by rw [← hcs, hcg]
              rw [hcs] at hfv
              rw [h6, Option.some.injEq] at hfv
              rw [← hfv, ← hsg]
              simp [getHexDistance]
            · omega
          · exact le_trans hle hgm
        · rw [if_neg hcg] at h
          have hInv1 : AInv hexGrid start goal maxD
              { st with openSet := st.openSet.erase current } :=
            ⟨fun n hn => hInv.openScored n (List.mem_of_mem_erase hn),
              hInv.gNonneg, hInv.chain,
              fun n hn hns => hInv.openChain n (List.mem_of_mem_erase hn) hns,
              hInv.fStart⟩
          rcases hInv.openScored current hcmem with ⟨gc, hgc⟩
          have hcc : current ≠ start → st.cameFrom current ≠ none :=
            hInv.openChain current hcmem
          have hP2 := foldl_preserves_mem
            (fun x => AInv hexGrid start goal maxD x ∧
              x.gScore current = some gc ∧
              (current ≠ start → x.cameFrom current ≠ none))
            (relaxNeighbor hexGrid goal maxD current)
            (getNeighbors current)
            { st with openSet := st.openSet.erase current }
            (fun a ha x hx =>
              relax_preserves hexGrid start goal maxD current gc x a ha
                hx.1 hx.2.1 hx.2.2)
            ⟨hInv1, hgc, hcc⟩
          exact ih _ path hP2.1 h

theorem coordCost_twice (hexGrid : List Hex) (c : HexCoordinates) :
    2 * coordCost hexGrid c = ((coordCostHalf hexGrid c : Int) : Rat) := by
  unfold coordCost coordCostHalf
  rcases findHexByCoordinates hexGrid c with _ | hx
  · norm_num
  · exact terrainCost_twice hx.terrain

theorem coordCost_sum_twice (hexGrid : List Hex) :
    ∀ l : List HexCoordinates,
      2 * (l.map (coordCost hexGrid)).sum =
        (((l.map (coordCostHalf hexGrid)).sum : Int) : Rat) := by
  intro l
  induction l with
  | nil => simp
  | cons a t ih =>
    simp only [List.map_cons, List.sum_cons, mul_add, ih, coordCost_twice]
    push_cast
    ring

/-- C8: a non-null findPath result starts at the start coordinate, ends at
the goal, moves only between hex neighbors, stays on existing non-water
hexes after the start, and the sum of its per-step terrain costs (1 for
plain/other, 2 for mountain, 1.5 for forest; equivalently the half-unit
costs against the half-unit budget) does not exceed the cost budget.
Consequently, when no such path within the budget exists, findPath
returns null: a non-null result would itself be such a path. -/
theorem findPath_sound (hexGrid : List Hex) (start goal : HexCoordinates)
    (maxDistance : Int) (path : List HexCoordinates)
    (h : findPath start goal hexGrid maxDistance = some path) :
    path.head? = some start ∧ path.getLast? = some goal ∧
    path.Chain' (fun a b => b ∈ getNeighbors a) ∧
    (∀ c ∈ path.tail, ∃ hx, findHexByCoordinates hexGrid c = some hx ∧
      hx.terrain ≠ .water) ∧
    (path.tail.map (coordCostHalf hexGrid)).sum ≤ maxDistance ∧
    2 * (path.tail.map (coordCost hexGrid)).sum ≤ (maxDistance : Rat) := by
  have hInv0 : AInv hexGrid start goal maxDistance
      { openSet := [start],
        cameFrom := fun _ => none,
        gScore := mapUpdate (fun _ => none) start 0,
        fScore := mapUpdate (fun _ => none) start
          (2 * getHexDistance start goal) } := by
    refine ⟨?_, ?_, ?_, ?_, ?_⟩
    · intro n hn
      rw [List.mem_singleton.mp hn]
      exact ⟨0, mapUpdate_self (fun _ => none) start 0⟩
    · intro n g hg
      have hg2 : mapUpdate (fun _ => none) start (0 : Int) n = some g := hg
      by_cases hns : n = start
      · rw [hns, mapUpdate_self] at hg2
        cases hg2
        exact ⟨le_refl 0, fun hc => absurd hns hc⟩
      · rw [mapUpdate_ne _ _ _ _ hns] at hg2
        cases hg2
    · intro n p hcf
      exact Option.noConfusion hcf
    · intro n hn hns
      exact absurd (List.mem_singleton.mp hn) hns
    · exact Or.inl
        (mapUpdate_self (fun _ => none) start (2 * getHexDistance start goal))
  simp only [findPath] at h
  rcases findPathAux_sound hexGrid start goal maxDistance
    (maxDistance.toNat + 1)
    ((hexGrid.length + 1) * (maxDistance.toNat + 2) + 1) _ path hInv0 h with
    ⟨h1, h2, h3, h4, h5⟩
  refine ⟨h1, h2, h3, h4, h5, ?_⟩
  rw [coordCost_sum_twice]
  exact_mod_cast h5

/-- Three-hex row for the findPath witness: plain, forest, plain.  The
cheapest route from (0,0) to (2,0) costs 1.5 + 1 = 2.5 source units, i.e.
5 half units: it is found with budget 5 and null is returned with budget
4 (the Scenario D shape: movementRange 2 while every route costs at
least 2.5). -/
def pathGrid : List Hex :=
  [plainHex "p0" 0 0,
   { plainHex "p1" 1 0 with terrain := .forest },
   plainHex "p2" 2 0]

theorem findPath_sound_witness :
    (findPath ⟨0, 0⟩ ⟨2, 0⟩ pathGrid 5 =
      some [⟨0, 0⟩, ⟨1, 0⟩, ⟨2, 0⟩]) ∧
    (([⟨0, 0⟩, ⟨1, 0⟩, ⟨2, 0⟩] : List HexCoordinates).head? =
        some ⟨0, 0⟩ ∧
      ([⟨0, 0⟩, ⟨1, 0⟩, ⟨2, 0⟩] : List HexCoordinates).getLast? =
        some ⟨2, 0⟩ ∧
      List.Chain' (fun a b => b ∈ getNeighbors a)
        [⟨0, 0⟩, ⟨1, 0⟩, ⟨2, 0⟩] ∧
      (∀ c ∈ ([⟨0, 0⟩, ⟨1, 0⟩, ⟨2, 0⟩] : List HexCoordinates).tail,
        ∃ hx, findHexByCoordinates pathGrid c = some hx ∧
          hx.terrain ≠ .water) ∧
      ((([⟨0, 0⟩, ⟨1, 0⟩, ⟨2, 0⟩] : List HexCoordinates).tail.map
        (coordCostHalf pathGrid)).sum ≤ (5 : Int)) ∧
      2 * (([⟨0, 0⟩, ⟨1, 0⟩, ⟨2, 0⟩] : List HexCoordinates).tail.map
        (coordCost pathGrid)).sum ≤ ((5 : Int) : Rat)) ∧
    findPath ⟨0, 0⟩ ⟨2, 0⟩ pathGrid 4 = none := by
  exact ⟨by decide,
    findPath_sound pathGrid ⟨0, 0⟩ ⟨2, 0⟩ 5 _ (by decide),
    by decide⟩

/-! ## AI strategist (HexPosition.ts)

Math.random() is modelled by an oracle rand : Nat → Rat together with an
explicit draw counter: the n-th draw of the source run is rand n, each
consuming call incrementing the counter exactly where the source draws
(short-circuit && evaluation included).  The fractional difficulty weights
and threat ratios are Rat; findPath budgets are passed in half units
(twice the source argument) to match the Int half-unit findPath
embedding. -/

/-- The per-difficulty weight record. -/
structure AIDifficultySettings where
  attackAggressiveness : Rat
  defensePreference : Rat
  resourceFocus : Rat
  unitDiversityDesire : Rat
  retreatThreshold : Rat
deriving DecidableEq, Repr

/-- DIFFICULTY_SETTINGS from HexPosition.ts. -/
def DIFFICULTY_SETTINGS : AIDifficulty → AIDifficultySettings
  | .easy =>
    { attackAggressiveness := mkRat 3 10, defensePreference := mkRat 7 10,
      resourceFocus := mkRat 4 10, unitDiversityDesire := mkRat 3 10,
      retreatThreshold := mkRat 7 10 }
  | .medium =>
    { attackAggressiveness := mkRat 5 10, defensePreference := mkRat 5 10,
      resourceFocus := mkRat 6 10, unitDiversityDesire := mkRat 6 10,
      retreatThreshold := mkRat 5 10 }
  | .hard =>
    { attackAggressiveness := mkRat 8 10, defensePreference := mkRat 4 10,
      resourceFocus := mkRat 7 10, unitDiversityDesire := mkRat 8 10,
      retreatThreshold := mkRat 3 10 }

/-- findPlayerBase: first hex of the grid that is a base of the faction. -/
def findPlayerBase (state : GameState) (playerType : PlayerType) :
    Option Hex :=
  state.hexGrid.find? (fun hex => hex.isBase && hex.owner == some playerType)

/-- The ThreatAssessment record; threatenedUnits pairs each threatened
unit with its threat level. -/
structure ThreatAssessment where
  baseUnderThreat : Bool
  threatenedUnits : List (Unit × Rat)
  enemyStrengthNearBase : Int
  strongestEnemyUnit : Option Unit := none
deriving DecidableEq, Repr

/-- assessThreats from HexPosition.ts. -/
def assessThreats (state : GameState) (aiPlayer : Player) :
    ThreatAssessment :=
  match findPlayerBase state .ai with
  | none =>
    { baseUnderThreat := false, threatenedUnits := [],
      enemyStrengthNearBase := 0 }
  | some aiBase =>
    let hexesNearBase := getHexesInRange state.hexGrid aiBase.coordinates 3
    let enemyUnitsNearBase := hexesNearBase.filterMap (fun hex =>
      match hex.unit with
      | some u => if u.owner == .player then some u else none
      | none => none)
    let enemyStrengthNearBase : Int :=
      enemyUnitsNearBase.foldl (fun sum u => sum + u.attackPower) 0
    let strongestEnemyUnit := (state.players.player.units.foldl
      (fun acc u => if u.attackPower > acc.2 then (some u, u.attackPower)
                    else acc)
      ((none : Option Unit), (0 : Int))).1
    let threatenedUnits := aiPlayer.units.filterMap (fun aiUnit =>
      let adjacentHexes := (getNeighbors aiUnit.position).filterMap
        (findHexByCoordinates state.hexGrid)
      let adjacentEnemies := adjacentHexes.filterMap (fun hex =>
        match hex.unit with
        | some u => if u.owner == .player then some u else none
        | none => none)
      if adjacentEnemies.length > 0 then
        let enemyStrength : Int :=
          adjacentEnemies.foldl (fun sum u => sum + u.attackPower) 0
        some (aiUnit, (enemyStrength : Rat) / (aiUnit.lifespan : Rat))
      else none)
    let baseUnderThreat :=
      decide (enemyStrengthNearBase > 5) ||
        decide (enemyUnitsNearBase.length ≥ 2)
    { baseUnderThreat := baseUnderThreat,
      threatenedUnits := threatenedUnits,
      enemyStrengthNearBase := enemyStrengthNearBase,
      strongestEnemyUnit := strongestEnemyUnit }

/-- findResourceOpportunities: resource hexes not held by an ai unit. -/
def findResourceOpportunities (state : GameState) : List Hex :=
  state.hexGrid.filter (fun hex =>
    hex.isResourceHex &&
      (match hex.unit with
       | none => true
       | some u => u.owner != .ai))

/-- Stable insertion into a list sorted ascending by an integer key: the
new element goes after every element with a key ≤ its own, matching the
stable JavaScript Array.prototype.sort with comparator key a - key b. -/
def insertByKey {α : Type _} (key : α → Int) (a : α) : List α → List α
  | [] => [a]
  | b :: t => if key b ≤ key a then b :: insertByKey key a t else a :: b :: t

/-- Stable sort ascending by an integer key. -/
def sortByKey {α : Type _} (key : α → Int) (l : List α) : List α :=
  l.foldl (fun acc a => insertByKey key a acc) []

/-- Object.keys order of the UNITS table. -/
def UNIT_TYPE_KEYS : List UnitType :=
  [.infantry, .tank, .artillery, .helicopter, .medic]

/-- decidePurchase from HexPosition.ts: returns the purchase decision and
the updated draw counter.  The source's Object.values reduce with a
pseudo-unit of cost Infinity selects the strictly cheapest stat block,
modelled with an Option accumulator (none standing for the Infinity
seed). -/
def decidePurchase (state : GameState) (aiPlayer : Player)
    (settings : AIDifficultySettings)
    (threatAssessment : ThreatAssessment)
    (resourceOpportunities : List Hex) (rand : Nat → Rat) (k : Nat) :
    Option Purchase × Nat :=
  let cheapestUnit := UNIT_TYPE_KEYS.foldl
    (fun (cheapest : Option UnitStats) t =>
      match cheapest with
      | none => some (UNITS t)
      | some c => if (UNITS t).cost < c.cost then some (UNITS t)
                  else cheapest)
    none
  let tooPoor : Bool :=
    match cheapestUnit with
    | none => true
    | some c => decide (aiPlayer.points < c.cost)
  if tooPoor then (none, k)
  else
    let dt : UnitType × Nat :=
      if threatAssessment.baseUnderThreat then
        ((if aiPlayer.points ≥ (UNITS .tank).cost then .tank
          else .infantry), k)
      else
        let afterResource : Option UnitType × Nat :=
          if resourceOpportunities.length > 0 then
            (if rand k < settings.resourceFocus then
              some (if aiPlayer.points ≥ (UNITS .helicopter).cost then
                      UnitType.helicopter
                    else .infantry)
             else none, k + 1)
          else (none, k)
        match afterResource with
        | (some t, kr) => (t, kr)
        | (none, kr) =>
          if rand kr < settings.attackAggressiveness then
            ((if aiPlayer.points ≥ (UNITS .artillery).cost then
                UnitType.artillery
              else if aiPlayer.points ≥ (UNITS .tank).cost then .tank
              else .infantry), kr + 1)
          else
            let unitCount : UnitType → Int := fun t =>
              ((aiPlayer.units.filter (fun u => u.type == t)).length : Int)
            let sortedTypes := sortByKey unitCount
              (UNIT_TYPE_KEYS.filter
                (fun t => (UNITS t).cost ≤ aiPlayer.points))
            ((match sortedTypes with
              | t :: _ => t
              | [] => .infantry), kr + 1)
    match findPlayerBase state .ai with
    | none => (none, dt.2)
    | some aiBase =>
      let adjacentPositions := getNeighbors aiBase.coordinates
      let validPositions := adjacentPositions.filter (fun pos =>
        match findHexByCoordinates state.hexGrid pos with
        | some hex =>
          hex.unit.isNone && hex.terrain != TerrainType.water &&
            hex.terrain != TerrainType.mountain
        | none => false)
      if validPositions.length = 0 then (none, dt.2)
      else
        let idx := (rand dt.2 * (validPositions.length : Rat)).floor
        (some { playerId := aiPlayer.id, unitType := dt.1,
                position := validPositions.getD idx.toNat ⟨0, 0⟩ },
          dt.2 + 1)

/-- First half of decideRetreatMove: the move along a path towards the
base (findPath budget in half units). -/
def retreatViaPath (state : GameState) (unit : Unit) (aiBase : Hex) :
    Option Move :=
  match findPath unit.position aiBase.coordinates state.hexGrid
      (2 * unit.movementRange) with
  | some path =>
    if path.length > 1 then
      let targetPos :=
        path.getD (min (path.length - 1) unit.movementRange.toNat) ⟨0, 0⟩
      match findHexByCoordinates state.hexGrid targetPos with
      | some targetHex =>
        if targetHex.unit.isNone then
          some { unitId := unit.id, playerId := state.players.ai.id,
                 from_ := unit.position, to_ := targetPos }
        else none
      | none => none
    else none
  | none => none

/-- decideRetreatMove from HexPosition.ts: path towards the base, else
the neighbor move scored farthest from the enemy units. -/
def decideRetreatMove (state : GameState) (unit : Unit) (aiBase : Hex) :
    Option Move :=
  match retreatViaPath state unit aiBase with
  | some m => some m
  | none =>
    let neighbors := getNeighbors unit.position
    let validMoves := neighbors.filter (fun pos =>
      match findHexByCoordinates state.hexGrid pos with
      | none => false
      | some hex =>
        if hex.unit.isSome then false
        else if unit.type != UnitType.helicopter &&
            hex.terrain == TerrainType.water then false
        else true)
    if validMoves.length = 0 then none
    else
      let enemyUnits := state.players.player.units
      let scoredMoves := validMoves.map (fun move =>
        (move, enemyUnits.foldl (fun score enemy =>
          score + (getHexDistance move enemy.position -
            getHexDistance unit.position enemy.position)) (0 : Int)))
      match sortByKey (fun p => -p.2) scoredMoves with
      | [] => none
      | best :: _ =>
        some { unitId := unit.id, playerId := state.players.ai.id,
               from_ := unit.position, to_ := best.1 }

/-- First half of decideDefensiveMove: intercept the closest enemy unit
adjacent to the base. -/
def interceptMove (state : GameState) (unit : Unit)
    (threateningPositions : List HexCoordinates) : Option Move :=
  if threateningPositions.length > 0 then
    match sortByKey (fun p => getHexDistance unit.position p)
        threateningPositions with
    | [] => none
    | target :: _ =>
      match findPath unit.position target state.hexGrid
          (2 * unit.movementRange) with
      | some path =>
        if path.length > 1 then
          let moveTarget :=
            path.getD (min (path.length - 1) unit.movementRange.toNat)
              ⟨0, 0⟩
          match findHexByCoordinates state.hexGrid moveTarget with
          | some targetHex =>
            if targetHex.unit.isNone then
              some { unitId := unit.id, playerId := state.players.ai.id,
                     from_ := unit.position, to_ := moveTarget }
            else none
          | none => none
        else none
      | none => none
  else none

/-- decideDefensiveMove from HexPosition.ts: intercept, else take the
closest free defensive position around the base. -/
def decideDefensiveMove (state : GameState) (unit : Unit) (aiBase : Hex) :
    Option Move :=
  let threateningPositions := (getNeighbors aiBase.coordinates).filter
    (fun pos =>
      match findHexByCoordinates state.hexGrid pos with
      | some hex =>
        match hex.unit with
        | some u => u.owner == .player
        | none => false
      | none => false)
  match interceptMove state unit threateningPositions with
  | some m => some m
  | none =>
    let validPositions := (getNeighbors aiBase.coordinates).filter
      (fun pos =>
        match findHexByCoordinates state.hexGrid pos with
        | none => false
        | some hex =>
          if hex.unit.isSome then false
          else if unit.type != UnitType.helicopter &&
              hex.terrain == TerrainType.water then false
          else true)
    if validPositions.length = 0 then none
    else
      match sortByKey (fun p => getHexDistance unit.position p)
          validPositions with
      | [] => none
      | bestPosition :: _ =>
        match findPath unit.position bestPosition state.hexGrid
            (2 * unit.movementRange) with
        | some path =>
          if path.length > 1 then
            some { unitId := unit.id, playerId := state.players.ai.id,
                   from_ := unit.position,
                   to_ := path.getD
                     (min (path.length - 1) unit.movementRange.toNat)
                     ⟨0, 0⟩ }
          else none
        | none => none

/-- The for-of scan of decideResourceCaptureMove over the sorted resource
hexes. -/
def captureScan (state : GameState) (unit : Unit) :
    List Hex → Option Move
  | [] => none
  | resource :: rest =>
    match findPath unit.position resource.coordinates state.hexGrid
        (2 * unit.movementRange) with
    | some path =>
      if path.length > 1 then
        let moveTarget :=
          path.getD (min (path.length - 1) unit.movementRange.toNat) ⟨0, 0⟩
        match findHexByCoordinates state.hexGrid moveTarget with
        | some targetHex =>
          if targetHex.unit.isNone then
            some { unitId := unit.id, playerId := state.players.ai.id,
                   from_ := unit.position, to_ := moveTarget }
          else captureScan state unit rest
        | none => captureScan state unit rest
      else captureScan state unit rest
    | none => captureScan state unit rest

/-- decideResourceCaptureMove from HexPosition.ts.  The source sorts the
shared resourceOpportunities array in place, so the sorted list is
returned alongside the decision and threaded through the caller's
loop. -/
def decideResourceCaptureMove (state : GameState) (unit : Unit)
    (resourceOpportunities : List Hex) : Option Move × List Hex :=
  if resourceOpportunities.length = 0 then (none, resourceOpportunities)
  else
    let sorted := sortByKey
      (fun h => getHexDistance unit.position h.coordinates)
      resourceOpportunities
    (captureScan state unit sorted, sorted)

/-- decideAttackMove from HexPosition.ts. -/
def decideAttackMove (state : GameState) (unit : Unit)
    (playerBase : Hex) : Option Move :=
  match findPath unit.position playerBase.coordinates state.hexGrid
      (2 * unit.movementRange) with
  | some path =>
    if path.length > 1 then
      let moveTarget :=
        path.getD (min (path.length - 1) unit.movementRange.toNat) ⟨0, 0⟩
      match findHexByCoordinates state.hexGrid moveTarget with
      | some targetHex =>
        if targetHex.unit.isNone || targetHex.isBase then
          some { unitId := unit.id, playerId := state.players.ai.id,
                 from_ := unit.position, to_ := moveTarget }
        else none
      | none => none
    else none
  | none => none

/-- Inclusive integer range lo..hi (empty when hi < lo). -/
def intRange (lo hi : Int) : List Int :=
  (List.range (hi - lo + 1).toNat).map (fun i => lo + i)

/-- decideRandomMove from HexPosition.ts: one draw picks the index among
the reachable empty hexes within movement range. -/
def decideRandomMove (state : GameState) (unit : Unit)
    (rand : Nat → Rat) (k : Nat) : Option Move × Nat :=
  let mr := unit.movementRange
  let coordsInRange := (intRange (-mr) mr).bind (fun q =>
    (intRange (max (-mr) (-q - mr)) (min mr (-q + mr))).map (fun r =>
      (⟨unit.position.q + q, unit.position.r + r⟩ : HexCoordinates)))
  let possibleMoves := coordsInRange.filter (fun coord =>
    match findHexByCoordinates state.hexGrid coord with
    | none => false
    | some hex =>
      if hex.unit.isSome then false
      else if unit.type != UnitType.helicopter &&
          hex.terrain == TerrainType.water then false
      else
        match findPath unit.position coord state.hexGrid (2 * mr) with
        | some path => decide ((path.length : Int) ≤ mr + 1)
        | none => false)
  if possibleMoves.length = 0 then (none, k)
  else
    let idx := (rand k * (possibleMoves.length : Rat)).floor
    (some { unitId := unit.id, playerId := state.players.ai.id,
            from_ := unit.position,
            to_ := possibleMoves.getD idx.toNat ⟨0, 0⟩ }, k + 1)

/-- One iteration of the decideMoves loop body for a unit that passed the
hasMoved/isEngagedInCombat skip: yields the optional move, the resource
list (re-sorted in place by a capture attempt) and the updated draw
counter.  Draws happen exactly where the source evaluates
Math.random(): the defense draw only when the base is threatened and the
unit is within distance 5, the resource draw only when resources exist,
and the attack-or-random draw always, with a further draw inside
decideRandomMove when it has candidates. -/
def attackOrRandomStage (state : GameState)
    (settings : AIDifficultySettings) (playerBase : Hex)
    (rand : Nat → Rat) (unit : Unit) (resOps : List Hex) (k2 : Nat) :
    Option Move × List Hex × Nat :=
  if rand k2 < settings.attackAggressiveness then
    (decideAttackMove state unit playerBase, resOps, k2 + 1)
  else
    let mk3 := decideRandomMove state unit rand (k2 + 1)
    (mk3.1, resOps, mk3.2)

/-- The resource-capture stage of the loop body; falls through to the
attack-or-random stage. -/
def resourceStage (state : GameState) (settings : AIDifficultySettings)
    (playerBase : Hex) (rand : Nat → Rat) (unit : Unit)
    (resourceOpportunities : List Hex) (k1 : Nat) :
    Option Move × List Hex × Nat :=
  if resourceOpportunities.length > 0 then
    if rand k1 < settings.resourceFocus &&
        (unit.type == UnitType.infantry ||
          unit.type == UnitType.helicopter) then
      let ms := decideResourceCaptureMove state unit resourceOpportunities
      match ms.1 with
      | some mv => (some mv, ms.2, k1 + 1)
      | none =>
        attackOrRandomStage state settings playerBase rand unit ms.2
          (k1 + 1)
    else
      attackOrRandomStage state settings playerBase rand unit
        resourceOpportunities (k1 + 1)
  else
    attackOrRandomStage state settings playerBase rand unit
      resourceOpportunities k1

def decideMoveForUnit (state : GameState)
    (settings : AIDifficultySettings) (playerBase aiBase : Hex)
    (threatAssessment : ThreatAssessment) (rand : Nat → Rat)
    (unit : Unit) (resourceOpportunities : List Hex) (k : Nat) :
    Option Move × List Hex × Nat :=
  let retreat : Option Move :=
    match threatAssessment.threatenedUnits.find?
        (fun t => t.1.id == unit.id) with
    | some t =>
      if t.2 > settings.retreatThreshold then
        decideRetreatMove state unit aiBase
      else none
    | none => none
  match retreat with
  | some m => (some m, resourceOpportunities, k)
  | none =>
    if threatAssessment.baseUnderThreat &&
        decide (getHexDistance unit.position aiBase.coordinates < 5) then
      if rand k < settings.defensePreference then
        match decideDefensiveMove state unit aiBase with
        | some m => (some m, resourceOpportunities, k + 1)
        | none =>
          resourceStage state settings playerBase rand unit
            resourceOpportunities (k + 1)
      else
        resourceStage state settings playerBase rand unit
          resourceOpportunities (k + 1)
    else
      resourceStage state settings playerBase rand unit
        resourceOpportunities k

/-- The decideMoves for-loop over the ai roster, threading the resource
list and the draw counter; units already moved or engaged are skipped
without consuming draws. -/
def decideMovesAux (state : GameState)
    (settings : AIDifficultySettings) (playerBase aiBase : Hex)
    (threatAssessment : ThreatAssessment) (rand : Nat → Rat) :
    List Unit → List Hex → Nat → List Move
  | [], _, _ => []
  | unit :: rest, resourceOpportunities, k =>
    if unit.hasMoved || unit.isEngagedInCombat then
      decideMovesAux state settings playerBase aiBase threatAssessment
        rand rest resourceOpportunities k
    else
      match decideMoveForUnit state settings playerBase aiBase
          threatAssessment rand unit resourceOpportunities k with
      | (some m, resOps, kn) =>
        m :: decideMovesAux state settings playerBase aiBase
          threatAssessment rand rest resOps kn
      | (none, resOps, kn) =>
        decideMovesAux state settings playerBase aiBase threatAssessment
          rand rest resOps kn

/-- decideMoves from HexPosition.ts. -/
def decideMoves (state : GameState) (aiPlayer : Player)
    (settings : AIDifficultySettings) (playerBase aiBase : Hex)
    (threatAssessment : ThreatAssessment)
    (resourceOpportunities : List Hex) (rand : Nat → Rat) (k : Nat) :
    List Move :=
  decideMovesAux state settings playerBase aiBase threatAssessment rand
    aiPlayer.units resourceOpportunities k

/-- getAIMoves from HexPosition.ts: the per-turn AI decision entry
point. -/
def getAIMoves (state : GameState) (rand : Nat → Rat) :
    List Move × List Purchase :=
  let aiDifficulty :=
    match state.settings with
    | some s => s.aiDifficulty
    | none => .medium
  let settings := DIFFICULTY_SETTINGS aiDifficulty
  let aiPlayer := state.players.ai
  let playerBase := findPlayerBase state .player
  let aiBase := findPlayerBase state .ai
  match aiBase, playerBase with
  | some aiB, some pB =>
    let threatAssessment := assessThreats state aiPlayer
    let resourceOpportunities := findResourceOpportunities state
    let pk := decidePurchase state aiPlayer settings threatAssessment
      resourceOpportunities rand 0
    let moves := decideMoves state aiPlayer settings pB aiB
      threatAssessment resourceOpportunities rand pk.2
    (moves,
      match pk.1 with
      | some p => [p]
      | none => [])
  | _, _ => ([], [])

/-- A move is well-formed for a unit when it carries the unit id, the ai
player id and the unit position as origin. -/
def aiMoveShape (state : GameState) (u : Unit) (m : Move) : Prop :=
  m.unitId = u.id ∧ m.playerId = state.players.ai.id ∧ m.from_ = u.position

theorem retreatViaPath_shape (state : GameState) (u : Unit)
    (aiBase : Hex) (m : Move)
    (h : retreatViaPath state u aiBase = some m) :
    aiMoveShape state u m := by
  simp only [retreatViaPath] at h
  repeat' split at h
  all_goals first
    | exact Option.noConfusion h
    | (cases h; exact ⟨rfl, rfl, rfl⟩)

theorem decideRetreatMove_shape (state : GameState) (u : Unit)
    (aiBase : Hex) (m : Move)
    (h : decideRetreatMove state u aiBase = some m) :
    aiMoveShape state u m := by
  simp only [decideRetreatMove] at h
  rcases hv : retreatViaPath state u aiBase with _ | m0
  · simp only [hv] at h
    repeat' split at h
    all_goals first
      | exact Option.noConfusion h
      | (cases h; exact ⟨rfl, rfl, rfl⟩)
  · simp only [hv, Option.some.injEq] at h
    exact h ▸ retreatViaPath_shape state u aiBase m0 hv

theorem interceptMove_shape (state : GameState) (u : Unit)
    (tp : List HexCoordinates) (m : Move)
    (h : interceptMove state u tp = some m) :
    aiMoveShape state u m := by
  simp only [interceptMove] at h
  repeat' split at h
  all_goals first
    | exact Option.noConfusion h
    | (cases h; exact ⟨rfl, rfl, rfl⟩)

theorem decideDefensiveMove_shape (state : GameState) (u : Unit)
    (aiBase : Hex) (m : Move)
    (h : decideDefensiveMove state u aiBase = some m) :
    aiMoveShape state u m := by
  simp only [decideDefensiveMove] at h
  rcases hv : interceptMove state u
      ((getNeighbors aiBase.coordinates).filter
        (fun pos =>
          match findHexByCoordinates state.hexGrid pos with
          | some hex =>
            match hex.unit with
            | some u => u.owner == .player
            | none => false
          | none => false)) with _ | m0
  · simp only [hv] at h
    repeat' split at h
    all_goals first
      | exact Option.noConfusion h
      | (cases h; exact ⟨rfl, rfl, rfl⟩)
  · simp only [hv, Option.some.injEq] at h
    exact h ▸ interceptMove_shape state u _ m0 hv

theorem captureScan_shape (state : GameState) (u : Unit) :
    ∀ (l : List Hex) (m : Move), captureScan state u l = some m →
      aiMoveShape state u m := by
  intro l
  induction l with
  | nil =>
    intro m h
    exact Option.noConfusion h
  | cons resource rest ih =>
    intro m h
    simp only [captureScan] at h
    repeat' split at h
    all_goals first
      | exact Option.noConfusion h
      | (cases h; exact ⟨rfl, rfl, rfl⟩)
      | exact ih m h

theorem decideResourceCaptureMove_shape (state : GameState) (u : Unit)
    (resOps : List Hex) (m : Move)
    (h : (decideResourceCaptureMove state u resOps).1 = some m) :
    aiMoveShape state u m := by
  simp only [decideResourceCaptureMove] at h
  split at h
  · exact Option.noConfusion h
  · exact captureScan_shape state u _ m h

theorem decideAttackMove_shape (state : GameState) (u : Unit)
    (playerBase : Hex) (m : Move)
    (h : decideAttackMove state u playerBase = some m) :
    aiMoveShape state u m := by
  simp only [decideAttackMove] at h
  repeat' split at h
  all_goals first
    | exact Option.noConfusion h
    | (cases h; exact ⟨rfl, rfl, rfl⟩)

theorem decideRandomMove_shape (state : GameState) (u : Unit)
    (rand : Nat → Rat) (k : Nat) (m : Move)
    (h : (decideRandomMove state u rand k).1 = some m) :
    aiMoveShape state u m := by
  simp only [decideRandomMove] at h
  split at h
  · exact Option.noConfusion h
  · cases h
    exact ⟨rfl, rfl, rfl⟩

theorem attackOrRandomStage_shape (state : GameState)
    (settings : AIDifficultySettings) (playerBase : Hex)
    (rand : Nat → Rat) (u : Unit) (resOps : List Hex) (k2 : Nat)
    (m : Move) (ro : List Hex) (kn : Nat)
    (h : attackOrRandomStage state settings playerBase rand u resOps k2 =
      (some m, ro, kn)) : aiMoveShape state u m := by
  simp only [attackOrRandomStage] at h
  split at h
  · rw [Prod.mk.injEq] at h
    exact decideAttackMove_shape state u playerBase m h.1
  · rw [Prod.mk.injEq] at h
    exact decideRandomMove_shape state u rand (k2 + 1) m h.1

theorem resourceStage_shape (state : GameState)
    (settings : AIDifficultySettings) (playerBase : Hex)
    (rand : Nat → Rat) (u : Unit) (resOps : List Hex) (k1 : Nat)
    (m : Move) (ro : List Hex) (kn : Nat)
    (h : resourceStage state settings playerBase rand u resOps k1 =
      (some m, ro, kn)) : aiMoveShape state u m := by
  simp only [resourceStage] at h
  split at h
  · split at h
    · rcases hms : (decideResourceCaptureMove state u resOps).1 with _ | mv
      · rw [hms] at h
        exact attackOrRandomStage_shape state settings playerBase rand u
          _ _ m ro kn h
      · rw [hms] at h
        rw [Prod.mk.injEq, Option.some.injEq] at h
        exact h.1 ▸ decideResourceCaptureMove_shape state u resOps mv hms
    · exact attackOrRandomStage_shape state settings playerBase rand u
        _ _ m ro kn h
  · exact attackOrRandomStage_shape state settings playerBase rand u
      _ _ m ro kn h

theorem decideMoveForUnit_shape (state : GameState)
    (settings : AIDifficultySettings) (playerBase aiBase : Hex)
    (threat : ThreatAssessment) (rand : Nat → Rat) (u : Unit)
    (resOps : List Hex) (k : Nat) (m : Move) (ro : List Hex) (kn : Nat)
    (h : decideMoveForUnit state settings playerBase aiBase threat rand u
      resOps k = (some m, ro, kn)) : aiMoveShape state u m := by
  simp only [decideMoveForUnit] at h
  rcases hf : threat.threatenedUnits.find? (fun t => t.1.id == u.id)
    with _ | t <;> simp only [hf] at h
  · split at h
    · split at h
      · rcases hd : decideDefensiveMove state u aiBase with _ | m0 <;>
          simp only [hd] at h
        · exact resourceStage_shape state settings playerBase rand u
            _ _ m ro kn h
        · rw [Prod.mk.injEq, Option.some.injEq] at h
          exact h.1 ▸ decideDefensiveMove_shape state u aiBase m0 hd
      · exact resourceStage_shape state settings playerBase rand u
          _ _ m ro kn h
    · exact resourceStage_shape state settings playerBase rand u
        _ _ m ro kn h
  · by_cases ht : t.2 > settings.retreatThreshold
    · simp only [if_pos ht] at h
      rcases hr : decideRetreatMove state u aiBase with _ | m0 <;>
        simp only [hr] at h
      · split at h
        · split at h
          · rcases hd : decideDefensiveMove state u aiBase with _ | m1 <;>
              simp only [hd] at h
            · exact resourceStage_shape state settings playerBase rand u
                _ _ m ro kn h
            · rw [Prod.mk.injEq, Option.some.injEq] at h
              exact h.1 ▸ decideDefensiveMove_shape state u aiBase m1 hd
          · exact resourceStage_shape state settings playerBase rand u
              _ _ m ro kn h
        · exact resourceStage_shape state settings playerBase rand u
            _ _ m ro kn h
      · rw [Prod.mk.injEq, Option.some.injEq] at h
        exact h.1 ▸ decideRetreatMove_shape state u aiBase m0 hr
    · simp only [if_neg ht] at h
      split at h
      · split at h
        · rcases hd : decideDefensiveMove state u aiBase with _ | m0 <;>
            simp only [hd] at h
          · exact resourceStage_shape state settings playerBase rand u
              _ _ m ro kn h
          · rw [Prod.mk.injEq, Option.some.injEq] at h
            exact h.1 ▸ decideDefensiveMove_shape state u aiBase m0 hd
        · exact resourceStage_shape state settings playerBase rand u
            _ _ m ro kn h
      · exact resourceStage_shape state settings playerBase rand u
          _ _ m ro kn h

theorem decideMovesAux_shape (state : GameState)
    (settings : AIDifficultySettings) (playerBase aiBase : Hex)
    (threat : ThreatAssessment) (rand : Nat → Rat) :
    ∀ (units : List Unit) (resOps : List Hex) (k : Nat) (m : Move),
      m ∈ decideMovesAux state settings playerBase aiBase threat rand
        units resOps k →
      ∃ u, u ∈ units ∧ u.hasMoved = false ∧
        u.isEngagedInCombat = false ∧ aiMoveShape state u m := by
  intro units
  induction units with
  | nil =>
    intro resOps k m h
    simp only [decideMovesAux] at h
    exact absurd h (List.not_mem_nil m)
  | cons unit rest ih =>
    intro resOps k m h
    simp only [decideMovesAux] at h
    by_cases hs : (unit.hasMoved || unit.isEngagedInCombat) = true
    · rw [if_pos hs] at h
      rcases ih resOps k m h with ⟨u, hu, h1, h2, h3⟩
      exact ⟨u, List.mem_cons_of_mem _ hu, h1, h2, h3⟩
    · rw [if_neg hs] at h
      have hflags : unit.hasMoved = false ∧
          unit.isEngagedInCombat = false := by
        simp only [Bool.or_eq_true, not_or, Bool.not_eq_true] at hs
        exact hs
      rcases hmf : decideMoveForUnit state settings playerBase aiBase
        threat rand unit resOps k with ⟨mo, ro2, kn⟩
      rcases mo with _ | mv
      · simp only [hmf] at h
        rcases ih ro2 kn m h with ⟨u, hu, h1, h2, h3⟩
        exact ⟨u, List.mem_cons_of_mem _ hu, h1, h2, h3⟩
      · simp only [hmf] at h
        rcases List.mem_cons.mp h with h1 | h1
        · exact ⟨unit, List.mem_cons_self unit rest, hflags.1, hflags.2,
            h1 ▸ decideMoveForUnit_shape state settings playerBase aiBase
              threat rand unit resOps k mv ro2 kn hmf⟩
        · rcases ih ro2 kn m h1 with ⟨u, hu, hb1, hb2, hb3⟩
          exact ⟨u, List.mem_cons_of_mem _ hu, hb1, hb2, hb3⟩

/-- C10: every move returned by getAIMoves references a unit of the ai
roster whose hasMoved and isEngagedInCombat flags are both false, carries
the ai player id as playerId and has its from field equal to that unit's
current position; skipped (moved or engaged) units are never issued a
move. -/
theorem getAIMoves_moves_wellformed (state : GameState)
    (rand : Nat → Rat) (m : Move)
    (h : m ∈ (getAIMoves state rand).1) :
    ∃ u, u ∈ state.players.ai.units ∧ u.hasMoved = false ∧
      u.isEngagedInCombat = false ∧ m.unitId = u.id ∧
      m.playerId = state.players.ai.id ∧ m.from_ = u.position := by
  simp only [getAIMoves, decideMoves] at h
  rcases hab : findPlayerBase state .ai with _ | aiB <;>
    simp only [hab] at h
  · exact absurd h (List.not_mem_nil m)
  · rcases hpb : findPlayerBase state .player with _ | pB <;>
      simp only [hpb] at h
    · exact absurd h (List.not_mem_nil m)
    · rcases decideMovesAux_shape state _ pB aiB _ rand
        state.players.ai.units _ _ m h with ⟨u, hu, h1, h2, h3⟩
      exact ⟨u, hu, h1, h2, h3.1, h3.2.1, h3.2.2⟩

/-- Oracle standing for Math.random that always draws 0. -/
def randZero : Nat → Rat := fun _ => 0

/-- State for the getAIMoves witness: ai base at (0,0), an ai infantry at
(1,0), a free plain hex at (2,0) and the player base at (3,0); the ai has
no points (so no purchase) and the player no units (so no threats); with
every draw 0 < 0.5 the infantry takes the attack branch and moves onto
the player base. -/
def aiState : GameState :=
  { hexGrid :=
      [{ plainHex "a0" 0 0 with
          isBase := true, owner := some .ai, baseHealth := some 50 },
       { plainHex "a1" 1 0 with
          unit := some (mkUnit "aiu1" .infantry .ai ⟨1, 0⟩) },
       plainHex "a2" 2 0,
       { plainHex "a3" 3 0 with
          isBase := true, owner := some .player, baseHealth := some 50 }],
    players :=
      { player :=
          { id := "pl-1", type := .player, points := 0, units := [] },
        ai :=
          { id := "ai-1", type := .ai, points := 0,
            units := [mkUnit "aiu1" .infantry .ai ⟨1, 0⟩] } },
    currentPhase := .planning,
    turnNumber := 1,
    planningTimeRemaining := 60,
    pendingMoves := [],
    pendingPurchases := [],
    combats := [],
    settings := some DEFAULT_SETTINGS }

theorem getAIMoves_moves_wellformed_witness :
    ({ unitId := "aiu1", playerId := "ai-1", from_ := ⟨1, 0⟩,
       to_ := ⟨3, 0⟩ } : Move) ∈ (getAIMoves aiState randZero).1 ∧
    ∃ u, u ∈ aiState.players.ai.units ∧ u.hasMoved = false ∧
      u.isEngagedInCombat = false ∧
      ({ unitId := "aiu1", playerId := "ai-1", from_ := ⟨1, 0⟩,
         to_ := ⟨3, 0⟩ } : Move).unitId = u.id ∧
      ({ unitId := "aiu1", playerId := "ai-1", from_ := ⟨1, 0⟩,
         to_ := ⟨3, 0⟩ } : Move).playerId = aiState.players.ai.id ∧
      ({ unitId := "aiu1", playerId := "ai-1", from_ := ⟨1, 0⟩,
         to_ := ⟨3, 0⟩ } : Move).from_ = u.position := by
  exact ⟨by decide, getAIMoves_moves_wellformed aiState randZero _
    (by decide)⟩
